import Mathlib

/-!
# MTN MoMo collection workflow: a shallow embedding of `index.js` and `front-end/script.js`

The development has two layers, mirroring the repository.

* `MoMo.Server` embeds the route handlers of `src/index.js`.  A handler is a function of
  what it reads (route parameter or parsed JSON body, the subscription key, the values
  `uuidv4()` returns, the answer of the payment provider to its `axios` call) and
  produces what it does: the provider calls it issued, in order, the HTTP response it
  sent, and the number of identifiers drawn from `uuidv4` so far.
* `MoMo.FrontEnd` embeds the five request functions and the pay-button click handler of
  `src/front-end/script.js`, over an arbitrary `fetch`.
* `MoMo.Server.app` puts the handlers behind their routes, so that the click handler can
  be run against the server and a provider.

`console.log` / `console.error` output is not part of the model.  The library functions
the program calls (`btoa`, `JSON.stringify`, `fetch`, `axios`, Express routing) are
modelled after their documented behaviour.
-/

namespace MoMo

/-! ## JavaScript values -/

/-- JavaScript values that travel through the workflow: `undefined`, `null`, booleans,
strings and plain objects.  An object is its list of properties; a property read returns
the first entry stored under the name.  Numbers and arrays are left out. -/
inductive JSVal where
  | undefined
  | null
  | bool (b : Bool)
  | str (s : String)
  | obj (fields : List (String × JSVal))

namespace JSVal

/-- String conversion as performed by `+` with a string operand and by a template
literal. -/
def toStr : JSVal → String
  | undefined => "undefined"
  | null => "null"
  | bool true => "true"
  | bool false => "false"
  | str s => s
  | obj _ => "[object Object]"

/-- Truthiness, the test behind `!x` and `if (x)`. -/
def truthy : JSVal → Bool
  | undefined => false
  | null => false
  | bool b => b
  | str s => s ≠ ""
  | obj _ => true

/-- Test `v === undefined`. -/
def isUndefined : JSVal → Bool
  | undefined => true
  | _ => false

/-- Test for `undefined` or `null`, the two values a property read throws on. -/
def isNullish : JSVal → Bool
  | undefined => true
  | null => true
  | _ => false

/-- Read property `k` from a property list: the value stored, or `undefined` when the
object has no such property. -/
def lookup : List (String × JSVal) → String → JSVal
  | [], _ => undefined
  | (k, v) :: rest, name => if k = name then v else lookup rest name

/-- Property read `v.k`.  Reading from `undefined` or `null` throws a `TypeError`
(`none`); the names read in this program are not properties of strings or booleans. -/
def getProp : JSVal → String → Option JSVal
  | undefined, _ => none
  | null, _ => none
  | bool _, _ => some undefined
  | str _, _ => some undefined
  | obj fields, name => some (lookup fields name)

/-- Serialisation by `JSON.stringify` of an object literal followed by the JSON parse
on the receiving side: properties whose value is `undefined` are omitted. -/
def stringify (fields : List (String × JSVal)) : JSVal :=
  obj (fields.filter fun kv => !kv.2.isUndefined)

end JSVal

/-! ## `btoa` and base64 -/

/-- The base64 alphabet of RFC 4648, table 1. -/
def b64Alphabet : List Char :=
  "ABCDEFGHIJKLMNOPQRSTUVWXYZabcdefghijklmnopqrstuvwxyz0123456789+/".toList

/-- Character for a six-bit value. -/
def b64Char (n : Nat) : Char := b64Alphabet.getD n 'A'

/-- Six-bit value of an alphabet character. -/
def b64Index (c : Char) : Option Nat :=
  let i := b64Alphabet.indexOf c
  if i < 64 then some i else none

/-- Base64 encoding of a list of octets, with `=` padding. -/
def b64Encode : List Nat → List Char
  | [] => []
  | [a] => [b64Char (a / 4), b64Char (a % 4 * 16), '=', '=']
  | [a, b] => [b64Char (a / 4), b64Char (a % 4 * 16 + b / 16), b64Char (b % 16 * 4), '=']
  | a :: b :: c :: rest =>
      b64Char (a / 4) :: b64Char (a % 4 * 16 + b / 16) ::
        b64Char (b % 16 * 4 + c / 64) :: b64Char (c % 64) :: b64Encode rest

/-- Base64 decoding of padded text; `none` on text that is not well-formed base64. -/
def b64Decode : List Char → Option (List Nat)
  | [] => some []
  | c0 :: c1 :: c2 :: c3 :: rest =>
      if c2 = '=' ∧ c3 = '=' ∧ rest = [] then
        match b64Index c0, b64Index c1 with
        | some s0, some s1 => some [s0 * 4 + s1 / 16]
        | _, _ => none
      else if c3 = '=' ∧ rest = [] then
        match b64Index c0, b64Index c1, b64Index c2 with
        | some s0, some s1, some s2 => some [s0 * 4 + s1 / 16, s1 % 16 * 16 + s2 / 4]
        | _, _, _ => none
      else
        match b64Index c0, b64Index c1, b64Index c2, b64Index c3, b64Decode rest with
        | some s0, some s1, some s2, some s3, some bytes =>
            some ((s0 * 4 + s1 / 16) :: (s1 % 16 * 16 + s2 / 4) :: (s2 % 4 * 64 + s3) :: bytes)
        | _, _, _, _, _ => none
  | _ => none

/-- The global `btoa` of the JavaScript runtime: every character of the argument is
taken as one octet and the octets are base64-encoded; a character above U+00FF makes it
throw `InvalidCharacterError` (`none`). -/
def btoa (s : String) : Option String :=
  if s.toList.all (fun c => c.toNat ≤ 255) then
    some (String.mk (b64Encode (s.toList.map Char.toNat)))
  else none

/-- The global `atob` of the JavaScript runtime on padded base64 text: the decoded
octets, one character each.  Used on the specification side only. -/
def atob (s : String) : Option String :=
  (b64Decode s.toList).map fun bytes => String.mk (bytes.map Char.ofNat)

/-- Specification side: split text at its first colon into the part before it and the
part after it. -/
def splitAtColon : List Char → Option (List Char × List Char)
  | [] => none
  | c :: rest =>
      if c = ':' then some ([], rest)
      else (splitAtColon rest).map fun p => (c :: p.1, p.2)

/-- Specification side: recover user name and password from an `Authorization: Basic`
header value by base64-decoding the credential and splitting it at the colon. -/
def decodeBasicAuth (header : String) : Option (String × String) :=
  match header.toList with
  | 'B' :: 'a' :: 's' :: 'i' :: 'c' :: ' ' :: cred =>
      match atob (String.mk cred) with
      | some text => (splitAtColon text.toList).map fun p => (String.mk p.1, String.mk p.2)
      | none => none
  | _ => none

/-! ## `index.js`: the server -/

/-- Host of the MoMo API (`momoHost`). -/
def momoHost : String := "sandbox.momodeveloper.mtn.com"

/-- Token endpoint (`momoTokenUrl`). -/
def momoTokenUrl : String := "https://" ++ momoHost ++ "/collection/token/"

/-- Request-to-pay endpoint (`momoRequestToPayUrl`). -/
def momoRequestToPayUrl : String := "https://" ++ momoHost ++ "/collection/v1_0/requesttopay"

/-- One `axios` call to the provider: method, URL, headers, and the data argument
(`none` for `axios.get`). -/
structure ProviderReq where
  method : String
  url : String
  headers : List (String × String)
  data : Option JSVal

/-- Value of a header of a provider call. -/
def ProviderReq.header (r : ProviderReq) (name : String) : Option String :=
  (r.headers.find? fun h => h.1 = name).map Prod.snd

/-- What the server reads from its surroundings: `MOMO_SUBSCRIPTION_KEY` from the process
environment, the sequence of values returned by successive `uuidv4()` calls, the
provider, and the runtime function `decodeURIComponent` with which the framework
decodes a route parameter (`none` when it throws `URIError`).  `provider r = .ok d` is an
`axios` promise resolved with `response.data = d`; `.error m` is a rejected promise
(non-2xx status or network failure) with `error.message = m`. -/
structure Env where
  MOMO_SUBSCRIPTION_KEY : String
  uuidv4 : Nat → String
  provider : ProviderReq → Except String JSVal
  decodeURIComponent : String → Option String

/-- The response written by `res.status(..).json(..)`. -/
structure HttpResponse where
  status : Nat
  body : JSVal

/-- Effect of running one handler: provider calls issued in order, the response sent
(`none` when the handler threw before sending one), and how many `uuidv4()` values have
been drawn once it is done. -/
structure Outcome where
  calls : List ProviderReq
  response : Option HttpResponse
  uuidsDrawn : Nat

namespace Server

/-- Provider call of `POST /create-api-user` when `uuidv4()` returned `uuid`. -/
def createApiUserCall (env : Env) (uuid : String) : ProviderReq :=
  { method := "POST"
    url := "https://" ++ momoHost ++ "/v1_0/apiuser"
    headers := [("X-Reference-Id", uuid),
                ("Ocp-Apim-Subscription-Key", env.MOMO_SUBSCRIPTION_KEY),
                ("Content-Type", "application/json")]
    data := some (.obj [("providerCallbackHost", .str "https://525e-41-210-145-67.ngrok-free.app")]) }

/-- Handler of `POST /create-api-user`; `n` identifiers have been drawn before. -/
def createApiUser (env : Env) (n : Nat) : Outcome :=
  let uuid := env.uuidv4 n
  let call := createApiUserCall env uuid
  match env.provider call with
  | .ok data =>
      { calls := [call]
        response := some ⟨200, .obj [("response", data), ("userId", .str uuid)]⟩
        uuidsDrawn := n + 1 }
  | .error message =>
      { calls := [call]
        response := some ⟨500, .obj [("message", .str "Error creating API user"),
                                     ("error", .str message)]⟩
        uuidsDrawn := n + 1 }

/-- Provider call of `GET /get-created-user/:userId`. -/
def getCreatedUserCall (env : Env) (userId : String) : ProviderReq :=
  { method := "GET"
    url := "https://" ++ momoHost ++ "/v1_0/apiuser/" ++ userId
    headers := [("Ocp-Apim-Subscription-Key", env.MOMO_SUBSCRIPTION_KEY)]
    data := none }

/-- Handler of `GET /get-created-user/:userId`. -/
def getCreatedUser (env : Env) (n : Nat) (userId : String) : Outcome :=
  let call := getCreatedUserCall env userId
  match env.provider call with
  | .ok data => { calls := [call], response := some ⟨200, data⟩, uuidsDrawn := n }
  | .error message =>
      { calls := [call]
        response := some ⟨500, .obj [("message", .str "Error retrieving created user"),
                                     ("error", .str message)]⟩
        uuidsDrawn := n }

/-- Provider call of `POST /retrieve-api-key/:userId`. -/
def retrieveApiKeyCall (env : Env) (userId : String) : ProviderReq :=
  { method := "POST"
    url := "https://" ++ momoHost ++ "/v1_0/apiuser/" ++ userId ++ "/apikey"
    headers := [("Ocp-Apim-Subscription-Key", env.MOMO_SUBSCRIPTION_KEY)]
    data := some (.obj []) }

/-- Handler of `POST /retrieve-api-key/:userId`. -/
def retrieveApiKey (env : Env) (n : Nat) (userId : String) : Outcome :=
  let call := retrieveApiKeyCall env userId
  match env.provider call with
  | .ok data => { calls := [call], response := some ⟨200, data⟩, uuidsDrawn := n }
  | .error message =>
      { calls := [call]
        response := some ⟨500, .obj [("message", .str "Error retrieving API key"),
                                     ("error", .str message)]⟩
        uuidsDrawn := n }

/-- Provider call of `POST /generate-api-token` carrying the header value `basicAuth`. -/
def generateApiTokenCall (env : Env) (basicAuth : String) : ProviderReq :=
  { method := "POST"
    url := momoTokenUrl
    headers := [("Authorization", basicAuth),
                ("Ocp-Apim-Subscription-Key", env.MOMO_SUBSCRIPTION_KEY)]
    data := some (.obj []) }

/-- Handler of `POST /generate-api-token`; `body` holds the properties of `req.body`.
The header is built before the `try` block, so an exception of `btoa` leaves the request
without a response and without a provider call. -/
def generateApiToken (env : Env) (n : Nat) (body : List (String × JSVal)) : Outcome :=
  let userId := JSVal.lookup body "userId"
  let apiKey := JSVal.lookup body "apiKey"
  let username := userId
  let password := apiKey
  match btoa (username.toStr ++ ":" ++ password.toStr) with
  | none => { calls := [], response := none, uuidsDrawn := n }
  | some credential =>
      let basicAuth := "Basic " ++ credential
      let call := generateApiTokenCall env basicAuth
      match env.provider call with
      | .ok data => { calls := [call], response := some ⟨200, data⟩, uuidsDrawn := n }
      | .error message =>
          { calls := [call]
            response := some ⟨500, .obj [("message", .str "Error generating API token"),
                                         ("error", .str message)]⟩
            uuidsDrawn := n }

/-- Body sent to the provider by `POST /request-to-pay`. -/
def requestToPayBody (total phone : JSVal) (externalId : String) : JSVal :=
  .obj [("amount", total),
        ("currency", .str "EUR"),
        ("externalId", .str externalId),
        ("payer", .obj [("partyIdType", .str "MSISDN"), ("partyId", phone)]),
        ("payerMessage", .str "Payment for order"),
        ("payeeNote", .str "Payment for order")]

/-- Provider call of `POST /request-to-pay`. -/
def requestToPayCall (env : Env) (total phone momoTokenId : JSVal)
    (externalId paymentRefId : String) : ProviderReq :=
  { method := "POST"
    url := momoRequestToPayUrl
    headers := [("X-Reference-Id", paymentRefId),
                ("X-Target-Environment", "sandbox"),
                ("Ocp-Apim-Subscription-Key", env.MOMO_SUBSCRIPTION_KEY),
                ("Authorization", "Bearer " ++ momoTokenId.toStr),
                ("Content-Type", "application/json")]
    data := some (requestToPayBody total phone externalId) }

/-- Handler of `POST /request-to-pay`; `body` holds the properties of `req.body`. -/
def requestToPay (env : Env) (n : Nat) (body : List (String × JSVal)) : Outcome :=
  let total := JSVal.lookup body "total"
  let phone := JSVal.lookup body "phone"
  let momoTokenId := JSVal.lookup body "momoTokenId"
  if !momoTokenId.truthy then
    { calls := []
      response := some ⟨400, .obj [("error", .str "MoMo token not available")]⟩
      uuidsDrawn := n }
  else
    let externalId := env.uuidv4 n
    let paymentRefId := env.uuidv4 (n + 1)
    let call := requestToPayCall env total phone momoTokenId externalId paymentRefId
    match env.provider call with
    | .ok data =>
        { calls := [call]
          response := some ⟨200, .obj [("momoResponse", data), ("success", .bool true),
                                       ("paymentRefId", .str paymentRefId),
                                       ("externalId", .str externalId)]⟩
          uuidsDrawn := n + 2 }
    | .error message =>
        { calls := [call]
          response := some ⟨500, .obj [("error", .str ("An error occurred: " ++ message))]⟩
          uuidsDrawn := n + 2 }

/-- Provider call of `GET /payment-status/:transactionId`. -/
def paymentStatusCall (env : Env) (transactionId : String) : ProviderReq :=
  { method := "GET"
    url := "https://" ++ momoHost ++ "/collection/v1_0/requesttopay/" ++ transactionId
    headers := [("Ocp-Apim-Subscription-Key", env.MOMO_SUBSCRIPTION_KEY),
                ("X-Target-Environment", "sandbox")]
    data := none }

/-- Handler of `GET /payment-status/:transactionId`. -/
def paymentStatus (env : Env) (n : Nat) (transactionId : String) : Outcome :=
  let call := paymentStatusCall env transactionId
  match env.provider call with
  | .ok data => { calls := [call], response := some ⟨200, data⟩, uuidsDrawn := n }
  | .error message =>
      { calls := [call]
        response := some ⟨500, .obj [("error", .str ("An error occurred: " ++ message))]⟩
        uuidsDrawn := n }

end Server

/-! ## `front-end/script.js`: the browser side -/

namespace FrontEnd

/-- One `fetch` call: method, URL, headers, and the JSON value serialised into the body
(`none` when no body is sent). -/
structure FetchReq where
  method : String
  url : String
  headers : List (String × String)
  body : Option JSVal

/-- How `await fetch(..)` followed by `response.json()` can end: the fetch promise is
rejected (no HTTP response was obtained), or a response with some status arrived whose
body parses as JSON (`some`) or does not (`none`).  The status plays no part in what
`fetch` or `response.json()` do. -/
inductive FetchResult where
  | rejected
  | answered (status : Nat) (json : Option JSVal)

/-- Value returned by `return response.json()`, or `none` when the function throws. -/
def FetchResult.returned : FetchResult → Option JSVal
  | .rejected => none
  | .answered _ json => json

/-- A call ended well: a response with a 2xx status arrived and its body is JSON other
than `null`. -/
def FetchResult.succeeded : FetchResult → Bool
  | .answered status (some body) => decide (200 ≤ status) && decide (status < 300) && !body.isNullish
  | _ => false

/-- Request of `createApiUser()`. -/
def createApiUser : FetchReq :=
  { method := "POST"
    url := "http://localhost:3001/create-api-user"
    headers := [("Content-Type", "application/json")]
    body := none }

/-- Request of `getCreatedUser(userId)`. -/
def getCreatedUser (userId : JSVal) : FetchReq :=
  { method := "GET"
    url := "http://localhost:3001/get-created-user/" ++ userId.toStr
    headers := []
    body := none }

/-- Request of `retrieveApiKey(userId)`. -/
def retrieveApiKey (userId : JSVal) : FetchReq :=
  { method := "POST"
    url := "http://localhost:3001/retrieve-api-key/" ++ userId.toStr
    headers := [("Content-Type", "application/json")]
    body := none }

/-- Request of `generateApiToken(userId, apiKey)`. -/
def generateApiToken (userId apiKey : JSVal) : FetchReq :=
  { method := "POST"
    url := "http://localhost:3001/generate-api-token"
    headers := [("Content-Type", "application/json")]
    body := some (JSVal.stringify [("userId", userId), ("apiKey", apiKey)]) }

/-- Request of `requestToPay(phone, amount, momoTokenId)`. -/
def requestToPay (phone amount : String) (momoTokenId : JSVal) : FetchReq :=
  { method := "POST"
    url := "http://localhost:3001/request-to-pay"
    headers := [("Content-Type", "application/json"),
                ("Authorization", "Bearer " ++ momoTokenId.toStr)]
    body := some (JSVal.stringify [("phone", .str phone), ("total", .str amount),
                                   ("momoTokenId", momoTokenId)]) }

/-- What one click on the pay button does: the `fetch` calls issued, in order, each with
how it ended; the text left in the message element; the state of the world behind
`fetch` afterwards. -/
structure Run (σ : Type) where
  log : List (FetchReq × FetchResult)
  message : String
  state : σ

/-- Text set in the `catch` block of the click handler. -/
def errorMessage : String := "An error occurred while processing the payment."

/-- Text set when the phone or the amount field is empty. -/
def validationMessage : String := "Please enter both phone number and amount."

/-- The click handler of `pay-button`.  `fetch s r` is what the world in state `s`
answers to request `r`, with its next state.  At each step `none` stands for an
exception inside the `try` block, thrown by the awaited call or by the property read on
its answer; control then passes to the `catch` block. -/
def payButtonClick {σ : Type} (fetch : σ → FetchReq → FetchResult × σ) (s : σ)
    (phone amount : String) : Run σ :=
  if phone = "" ∨ amount = "" then
    { log := [], message := validationMessage, state := s }
  else
    -- Step 1: Create API User
    let r1 := createApiUser
    let (a1, s1) := fetch s r1
    let log1 := [(r1, a1)]
    match a1.returned.bind (·.getProp "userId") with
    | none => { log := log1, message := errorMessage, state := s1 }
    | some userId =>
    -- Step 2: Retrieve Created User
    let r2 := getCreatedUser userId
    let (a2, s2) := fetch s1 r2
    let log2 := log1 ++ [(r2, a2)]
    match a2.returned with
    | none => { log := log2, message := errorMessage, state := s2 }
    | some _ =>
    -- Step 3: Retrieve API Key
    let r3 := retrieveApiKey userId
    let (a3, s3) := fetch s2 r3
    let log3 := log2 ++ [(r3, a3)]
    match a3.returned.bind (·.getProp "apiKey") with
    | none => { log := log3, message := errorMessage, state := s3 }
    | some apiKey =>
    -- Step 4: Generate MoMo Token
    let r4 := generateApiToken userId apiKey
    let (a4, s4) := fetch s3 r4
    let log4 := log3 ++ [(r4, a4)]
    match a4.returned.bind (·.getProp "access_token") with
    | none => { log := log4, message := errorMessage, state := s4 }
    | some momoTokenId =>
    -- Step 5: Make Payment Request
    let r5 := requestToPay phone amount momoTokenId
    let (a5, s5) := fetch s4 r5
    let log5 := log4 ++ [(r5, a5)]
    match a5.returned.bind (·.getProp "success") with
    | none => { log := log5, message := errorMessage, state := s5 }
    | some success =>
      if success.truthy then
        { log := log5, message := "Payment successful!", state := s5 }
      else
        { log := log5, message := "Payment failed.", state := s5 }

/-- Specification side: issue the given requests one after the other, each in the state
the one before it left; the answers obtained and the state after the last of them. -/
def replay {σ : Type} (fetch : σ → FetchReq → FetchResult × σ) (s : σ) :
    List FetchReq → List (FetchReq × FetchResult) × σ
  | [] => ([], s)
  | r :: rest =>
      ((r, (fetch s r).1) :: (replay fetch (fetch s r).2 rest).1,
        (replay fetch (fetch s r).2 rest).2)

/-- Specification side: the value of property `name` of the answer logged at position
`i`, when there is such an answer and the read does not throw. -/
def readAt (log : List (FetchReq × FetchResult)) (i : Nat) (name : String) : Option JSVal :=
  (log[i]?.bind (·.2.returned)).bind (·.getProp name)

end FrontEnd

/-! ## The front end talking to the server -/

namespace Server

/-- State of the server process between requests: identifiers drawn from `uuidv4` and the
provider calls issued so far. -/
structure ServerState where
  uuidsDrawn : Nat
  providerCalls : List ProviderReq

/-- Remove the leading text `p` from `s`, if `s` starts with it. -/
def dropLeading : List Char → List Char → Option (List Char)
  | [], s => some s
  | _ :: _, [] => none
  | p :: ps, c :: cs => if p = c then dropLeading ps cs else none

/-- How a path fares against a route with one trailing parameter. -/
inductive ParamMatch where
  | noMatch
  | undecodable
  | param (value : String)

/-- Match a path against a route with one trailing parameter, such as
`/get-created-user/:userId`, the way the framework does: the rest of the path must be
non-empty and free of `/`, and the handler is given that text run through
`decodeURIComponent`.  Query strings are not modelled. -/
def routeParam (env : Env) (route path : String) : ParamMatch :=
  match dropLeading route.toList path.toList with
  | some rest =>
      if rest ≠ [] ∧ '/' ∉ rest then
        match env.decodeURIComponent (String.mk rest) with
        | some value => .param value
        | none => .undecodable
      else .noMatch
  | none => .noMatch

/-- Properties of `req.body` as left by `bodyParser.json()`: those of the JSON object
sent, and none when there is no such body. -/
def bodyFields : Option JSVal → List (String × JSVal)
  | some (.obj fields) => fields
  | _ => []

/-- Where a request ends up: in a handler, or in an answer whose body is not JSON (the
home route, or the framework itself). -/
inductive Routed where
  | handled (out : Outcome)
  | plain (status : Nat)

/-- The routes registered on the Express application, tried in order: the handler that a
request of the front end reaches, run on that request.  The home route answers 200 with
a plain text; a parameter that cannot be decoded is answered by the framework with a 400
page and a request that matches no route with a 404 page.  Paths are matched exactly (no
case folding, no trailing slash). -/
def dispatch (env : Env) (n : Nat) (r : FrontEnd.FetchReq) : Routed :=
  match dropLeading "http://localhost:3001".toList r.url.toList with
  | none => .plain 404
  | some rest =>
    let path := String.mk rest
    if r.method = "GET" ∧ path = "/" then .plain 200
    else if r.method = "POST" ∧ path = "/create-api-user" then
      .handled (createApiUser env n)
    else if r.method = "POST" ∧ path = "/generate-api-token" then
      .handled (generateApiToken env n (bodyFields r.body))
    else if r.method = "POST" ∧ path = "/request-to-pay" then
      .handled (requestToPay env n (bodyFields r.body))
    else if r.method = "GET" then
      match routeParam env "/get-created-user/" path with
      | .param userId => .handled (getCreatedUser env n userId)
      | .undecodable => .plain 400
      | .noMatch =>
        match routeParam env "/payment-status/" path with
        | .param transactionId => .handled (paymentStatus env n transactionId)
        | .undecodable => .plain 400
        | .noMatch => .plain 404
    else if r.method = "POST" then
      match routeParam env "/retrieve-api-key/" path with
      | .param userId => .handled (retrieveApiKey env n userId)
      | .undecodable => .plain 400
      | .noMatch => .plain 404
    else .plain 404

/-- The server listening on port 3001 as seen through `fetch`.  A handler that threw
before answering leaves the request without response, and the fetch promise ends
rejected. -/
def app (env : Env) (st : ServerState) (r : FrontEnd.FetchReq) :
    FrontEnd.FetchResult × ServerState :=
  match dispatch env st.uuidsDrawn r with
  | .plain status => (.answered status none, st)
  | .handled out =>
    let st1 : ServerState := ⟨out.uuidsDrawn, st.providerCalls ++ out.calls⟩
    match out.response with
    | none => (.rejected, st1)
    | some res => (.answered res.status (if res.body.isUndefined then none else some res.body), st1)

end Server

/-! ## Specification-side reading of a URL -/

/-- Specification side: the path part of a URL, which ends where a query (`?`) or a
fragment (`#`) starts. -/
def urlPath (url : String) : List Char :=
  url.toList.takeWhile (fun c => c ≠ '?' ∧ c ≠ '#')

/-- Specification side: the final path segment of a URL, the text of its path after the
last `/`. -/
def lastSegment (url : String) : String :=
  String.mk ((urlPath url).reverse.takeWhile (fun c => c ≠ '/')).reverse

/-! ## Sample data used in the worked examples -/

/-- A generator for the examples: `uuidv4` returns `u`, `uu`, `uuu`, ... -/
def sampleUuid (n : Nat) : String := String.mk (List.replicate (n + 1) 'u')

/-- A provider double that accepts every call the way the MoMo API does on the happy
path: empty payloads for user creation and request-to-pay, an `apiKey`, an
`access_token`, and a status payload. -/
def acceptingProvider (r : ProviderReq) : Except String JSVal :=
  if r.url = "https://sandbox.momodeveloper.mtn.com/v1_0/apiuser" then .ok (.str "")
  else if r.url = momoTokenUrl then
    .ok (.obj [("access_token", .str "eyJ0eXAi"), ("token_type", .str "access_token")])
  else if r.url = momoRequestToPayUrl then .ok (.str "")
  else if r.method = "POST" then .ok (.obj [("apiKey", .str "f1db798c98df4bcf")])
  else .ok (.obj [("status", .str "SUCCESSFUL")])

/-- A provider double that rejects every call with status 500. -/
def rejectingProvider (_ : ProviderReq) : Except String JSVal :=
  .error "Request failed with status code 500"

/-- A provider double with a failure injected at user creation only. -/
def failCreateUserProvider (r : ProviderReq) : Except String JSVal :=
  if r.url = "https://sandbox.momodeveloper.mtn.com/v1_0/apiuser" then
    .error "Request failed with status code 500"
  else acceptingProvider r

/-- Value of a hexadecimal digit. -/
def hexDigit (c : Char) : Option Nat :=
  let i := "0123456789ABCDEF".toList.indexOf c.toUpper
  if i < 16 then some i else none

/-- Percent-decoding for the examples: it agrees with `decodeURIComponent` on text whose
escapes all stand for characters below U+0080, and gives `none` on any other escape. -/
def samplePercentDecode : List Char → Option (List Char)
  | [] => some []
  | c :: rest =>
      if c = '%' then
        match rest with
        | h :: l :: more =>
            match hexDigit h, hexDigit l, samplePercentDecode more with
            | some a, some b, some text =>
                if a * 16 + b < 128 then some (Char.ofNat (a * 16 + b) :: text) else none
            | _, _, _ => none
        | _ => none
      else (samplePercentDecode rest).map (c :: ·)

/-- The function `decodeURIComponent` of the examples. -/
def sampleDecode (s : String) : Option String :=
  (samplePercentDecode s.toList).map String.mk

/-- Environment with the accepting provider. -/
def acceptingEnv : Env := ⟨"sub-key", sampleUuid, acceptingProvider, sampleDecode⟩

/-- Environment with the rejecting provider. -/
def rejectingEnv : Env := ⟨"sub-key", sampleUuid, rejectingProvider, sampleDecode⟩

/-- Environment with the failure injected at user creation. -/
def failCreateUserEnv : Env := ⟨"sub-key", sampleUuid, failCreateUserProvider, sampleDecode⟩

/-- A request-to-pay body as the front end sends it. -/
def sampleBody : List (String × JSVal) :=
  [("phone", .str "0700000000"), ("total", .str "500"), ("momoTokenId", .str "eyJ0eXAi")]

/-- A `fetch` that is always rejected: the server cannot be reached. -/
def offline (s : Unit) (_ : FrontEnd.FetchReq) : FrontEnd.FetchResult × Unit :=
  (.rejected, s)

open FrontEnd

/-! ## Auxiliary facts -/

/-- Strings that start with different characters differ. -/
theorem str_ne_of_head (a b : String) (x y : Char) (xs ys : List Char)
    (ha : a.data = x :: xs) (hb : b.data = y :: ys) (hxy : x ≠ y) : a ≠ b := by
  intro h
  rw [h] at ha
  rw [ha] at hb
  exact hxy (List.cons.inj hb).1

/-- The precondition text is not a provider-rejection text. -/
theorem tokenMissing_ne_errorOccurred (m : String) :
    "MoMo token not available" ≠ "An error occurred: " ++ m := by
  apply str_ne_of_head _ _ 'M' 'A' "oMo token not available".data
    ("n error occurred: ".data ++ m.data)
  · rfl
  · simp [String.data_append]
  · decide

/-- The sample generator never repeats a value. -/
theorem sampleUuid_injective : Function.Injective sampleUuid := by
  intro i j h
  have h2 := congrArg String.length h
  simp [sampleUuid, String.length] at h2
  exact h2

/-- The final path segment of a URL that ends in `/` and text free of `/`, `?` and `#`
is that text, when the part before holds no `?` and no `#`. -/
theorem lastSegment_append (base r : String)
    (hbase : ∀ c ∈ base.data, c ≠ '?' ∧ c ≠ '#')
    (h : '/' ∉ r.data ∧ '?' ∉ r.data ∧ '#' ∉ r.data) :
    lastSegment (base ++ "/" ++ r) = r := by
  have hall : ∀ a ∈ r.data.reverse, (fun c : Char => decide (c ≠ '/')) a = true := by
    intro a ha
    have : a ∈ r.data := List.mem_reverse.mp ha
    simp only [ne_eq, decide_not, Bool.not_eq_true', decide_eq_false_iff_not]
    intro hEq
    exact h.1 (hEq ▸ this)
  have hpath : urlPath (base ++ "/" ++ r) = base.data ++ '/' :: r.data := by
    have hdata : (base ++ "/" ++ r).toList = base.data ++ '/' :: r.data := by
      simp [String.toList, String.data_append]
    unfold urlPath
    rw [hdata, List.takeWhile_eq_self_iff]
    intro c hc
    simp only [List.mem_append, List.mem_cons] at hc
    simp only [ne_eq, decide_eq_true_eq]
    rcases hc with hc | hc | hc
    · exact hbase c hc
    · subst hc
      decide
    · exact ⟨fun hEq => h.2.1 (hEq ▸ hc), fun hEq => h.2.2 (hEq ▸ hc)⟩
  unfold lastSegment
  rw [hpath]
  have hrev : (base.data ++ '/' :: r.data).reverse = r.data.reverse ++ ('/' :: base.data.reverse) := by
    simp
  rw [hrev, List.takeWhile_append_of_pos hall]
  simp

/-- Every six-bit value is recovered from its alphabet character. -/
theorem b64Index_b64Char : ∀ n, n < 64 → b64Index (b64Char n) = some n := by decide

/-- No alphabet character is the padding character. -/
theorem b64Char_ne_pad : ∀ n, n < 64 → b64Char n ≠ '=' := by decide

/-- Base64 decoding undoes base64 encoding of octets. -/
theorem b64Decode_b64Encode (bytes : List Nat) (h : ∀ b ∈ bytes, b < 256) :
    b64Decode (b64Encode bytes) = some bytes := by
  induction bytes using b64Encode.induct with
  | case1 => rfl
  | case2 a =>
    have ha : a < 256 := h a (by simp)
    simp only [b64Encode, b64Decode]
    simp only [and_self, if_true]
    rw [b64Index_b64Char _ (by omega), b64Index_b64Char _ (by omega)]
    simp only [Option.some.injEq, List.cons.injEq, and_true]
    omega
  | case3 a b =>
    have ha : a < 256 := h a (by simp)
    have hb : b < 256 := h b (by simp)
    have h2 : b64Char (b % 16 * 4) ≠ '=' := b64Char_ne_pad _ (by omega)
    simp only [b64Encode, b64Decode]
    simp only [h2, false_and, if_false, and_self, if_true]
    rw [b64Index_b64Char _ (by omega), b64Index_b64Char _ (by omega),
      b64Index_b64Char _ (by omega)]
    simp only [Option.some.injEq, List.cons.injEq, and_true]
    omega
  | case4 a b c rest ih =>
    have ha : a < 256 := h a (by simp)
    have hb : b < 256 := h b (by simp)
    have hc : c < 256 := h c (by simp)
    have h2 : b64Char (b % 16 * 4 + c / 64) ≠ '=' := b64Char_ne_pad _ (by omega)
    have h3 : b64Char (c % 64) ≠ '=' := b64Char_ne_pad _ (by omega)
    have ih2 := ih (fun x hx => h x (by simp [hx]))
    simp only [b64Encode, b64Decode]
    simp only [h2, h3, false_and, if_false]
    rw [b64Index_b64Char _ (by omega), b64Index_b64Char _ (by omega),
      b64Index_b64Char _ (by omega), b64Index_b64Char _ (by omega), ih2]
    simp only [Option.some.injEq, List.cons.injEq, and_true]
    omega

/-- The function `atob` undoes `btoa`. -/
theorem atob_btoa (s t : String) (h : btoa s = some t) : atob t = some s := by
  unfold btoa at h
  split at h
  · rename_i hall
    simp only [Option.some.injEq] at h
    subst h
    have hb : ∀ b ∈ s.toList.map Char.toNat, b < 256 := by
      intro b hb
      obtain ⟨c, hc, rfl⟩ := List.mem_map.mp hb
      have := List.all_eq_true.mp hall c hc
      simp at this
      omega
    have hdec : b64Decode (b64Encode (List.map Char.toNat s.data))
        = some (List.map Char.toNat s.data) := b64Decode_b64Encode _ hb
    simp [atob, String.toList, hdec, Function.comp_def]
  · cases h

/-- Splitting at the first colon recovers a colon-free left part. -/
theorem splitAtColon_append (u k : List Char) (h : ':' ∉ u) :
    splitAtColon (u ++ ':' :: k) = some (u, k) := by
  induction u with
  | nil => simp [splitAtColon]
  | cons c rest ih =>
    have hc : c ≠ ':' := fun hEq => h (by simp [hEq])
    have hrest : ':' ∉ rest := fun hm => h (List.mem_cons_of_mem _ hm)
    simp [splitAtColon, hc, ih hrest]

/-- On text within U+0000..U+00FF `btoa` is the base64 encoding of its octets. -/
theorem btoa_latin1 (s : String) (h : ∀ c ∈ s.data, c.toNat ≤ 255) :
    btoa s = some (String.mk (b64Encode (s.data.map Char.toNat))) := by
  have hall : (s.data.all fun c => decide (c.toNat ≤ 255)) = true := by
    simp only [List.all_eq_true, decide_eq_true_eq]
    exact h
  simp only [btoa, String.toList, hall, if_true]

/-- Decoding a `Basic` header decodes its credential part. -/
theorem decodeBasicAuth_basic (credential : String) :
    decodeBasicAuth ("Basic " ++ credential)
      = match atob credential with
        | some text => (splitAtColon text.toList).map fun p => (String.mk p.1, String.mk p.2)
        | none => none := by
  have h : ("Basic " ++ credential).toList
      = 'B' :: 'a' :: 's' :: 'i' :: 'c' :: ' ' :: credential.data := rfl
  simp only [decodeBasicAuth, h]

/-- A call that ended well returned a value that is neither `undefined` nor `null`. -/
theorem succeeded_returned {a : FetchResult} (h : a.succeeded = true) :
    ∃ b, a.returned = some b ∧ b.isNullish = false := by
  cases a with
  | rejected => simp [FetchResult.succeeded] at h
  | answered status json =>
    cases json with
    | none => simp [FetchResult.succeeded] at h
    | some b =>
      simp only [FetchResult.succeeded, Bool.and_eq_true, Bool.not_eq_true'] at h
      exact ⟨b, rfl, h.2⟩

/-- A property read on a value other than `undefined` and `null` does not throw. -/
theorem getProp_isSome_of_not_nullish {b : JSVal} (h : b.isNullish = false) (k : String) :
    ∃ v, b.getProp k = some v := by
  cases b <;> simp [JSVal.isNullish] at h <;> simp [JSVal.getProp]

/-- A call whose answer was read did not throw. -/
theorem returned_ne_none_of_bind {a : FetchResult} {k : String} {v : JSVal}
    (h : a.returned.bind (·.getProp k) = some v) : a.returned ≠ none := by
  intro h2
  simp [h2] at h

/-- The body of `generateApiToken` carries both arguments unchanged. -/
theorem stringify_token_body (userId apiKey : JSVal) :
    (generateApiToken userId apiKey).body.bind (·.getProp "userId") = some userId
    ∧ (generateApiToken userId apiKey).body.bind (·.getProp "apiKey") = some apiKey := by
  cases userId <;> cases apiKey <;>
    simp [generateApiToken, JSVal.stringify, JSVal.getProp, JSVal.lookup, JSVal.isUndefined]

/-- The body of `requestToPay` carries its three arguments unchanged. -/
theorem stringify_pay_body (phone amount : String) (momoTokenId : JSVal) :
    (requestToPay phone amount momoTokenId).body.bind (·.getProp "phone") = some (.str phone)
    ∧ (requestToPay phone amount momoTokenId).body.bind (·.getProp "total") = some (.str amount)
    ∧ (requestToPay phone amount momoTokenId).body.bind (·.getProp "momoTokenId")
        = some momoTokenId := by
  cases momoTokenId <;>
    simp [requestToPay, JSVal.stringify, JSVal.getProp, JSVal.lookup, JSVal.isUndefined]

/-- The runs of the click handler for non-empty inputs, spelled out: which calls were
issued and with what result the run ended at each of its six exits. -/
theorem payButtonClick_shape {σ : Type} (fetch : σ → FetchReq → FetchResult × σ) (s : σ)
    (phone amount : String) (hp : phone ≠ "") (ha : amount ≠ "") :
    ∃ a1 s1, fetch s createApiUser = (a1, s1) ∧
    ((a1.returned.bind (·.getProp "userId") = none
        ∧ payButtonClick fetch s phone amount = ⟨[(createApiUser, a1)], errorMessage, s1⟩)
    ∨ ∃ userId a2 s2, a1.returned.bind (·.getProp "userId") = some userId
        ∧ fetch s1 (getCreatedUser userId) = (a2, s2) ∧
    ((a2.returned = none
        ∧ payButtonClick fetch s phone amount
          = ⟨[(createApiUser, a1), (getCreatedUser userId, a2)], errorMessage, s2⟩)
    ∨ ∃ a3 s3, a2.returned ≠ none ∧ fetch s2 (retrieveApiKey userId) = (a3, s3) ∧
    ((a3.returned.bind (·.getProp "apiKey") = none
        ∧ payButtonClick fetch s phone amount
          = ⟨[(createApiUser, a1), (getCreatedUser userId, a2), (retrieveApiKey userId, a3)],
              errorMessage, s3⟩)
    ∨ ∃ apiKey a4 s4, a3.returned.bind (·.getProp "apiKey") = some apiKey
        ∧ fetch s3 (generateApiToken userId apiKey) = (a4, s4) ∧
    ((a4.returned.bind (·.getProp "access_token") = none
        ∧ payButtonClick fetch s phone amount
          = ⟨[(createApiUser, a1), (getCreatedUser userId, a2), (retrieveApiKey userId, a3),
              (generateApiToken userId apiKey, a4)], errorMessage, s4⟩)
    ∨ ∃ momoTokenId a5 s5, a4.returned.bind (·.getProp "access_token") = some momoTokenId
        ∧ fetch s4 (requestToPay phone amount momoTokenId) = (a5, s5) ∧
    ((a5.returned.bind (·.getProp "success") = none
        ∧ payButtonClick fetch s phone amount
          = ⟨[(createApiUser, a1), (getCreatedUser userId, a2), (retrieveApiKey userId, a3),
              (generateApiToken userId apiKey, a4), (requestToPay phone amount momoTokenId, a5)],
              errorMessage, s5⟩)
    ∨ ∃ success, a5.returned.bind (·.getProp "success") = some success
        ∧ payButtonClick fetch s phone amount
          = ⟨[(createApiUser, a1), (getCreatedUser userId, a2), (retrieveApiKey userId, a3),
              (generateApiToken userId apiKey, a4), (requestToPay phone amount momoTokenId, a5)],
              if success.truthy then "Payment successful!" else "Payment failed.", s5⟩))))) := by
  rcases h1 : fetch s createApiUser with ⟨a1, s1⟩
  refine ⟨a1, s1, rfl, ?_⟩
  cases hb1 : a1.returned.bind (·.getProp "userId") with
  | none =>
    left
    refine ⟨rfl, ?_⟩
    simp [payButtonClick, hp, ha, h1, hb1]
  | some userId =>
    right
    rcases h2 : fetch s1 (getCreatedUser userId) with ⟨a2, s2⟩
    refine ⟨userId, a2, s2, rfl, h2, ?_⟩
    cases hb2 : a2.returned with
    | none =>
      left
      refine ⟨rfl, ?_⟩
      simp [payButtonClick, hp, ha, h1, hb1, h2, hb2]
    | some b2 =>
      right
      rcases h3 : fetch s2 (retrieveApiKey userId) with ⟨a3, s3⟩
      refine ⟨a3, s3, by simp, rfl, ?_⟩
      cases hb3 : a3.returned.bind (·.getProp "apiKey") with
      | none =>
        left
        refine ⟨rfl, ?_⟩
        simp [payButtonClick, hp, ha, h1, hb1, h2, hb2, h3, hb3]
      | some apiKey =>
        right
        rcases h4 : fetch s3 (generateApiToken userId apiKey) with ⟨a4, s4⟩
        refine ⟨apiKey, a4, s4, rfl, h4, ?_⟩
        cases hb4 : a4.returned.bind (·.getProp "access_token") with
        | none =>
          left
          refine ⟨rfl, ?_⟩
          simp [payButtonClick, hp, ha, h1, hb1, h2, hb2, h3, hb3, h4, hb4]
        | some momoTokenId =>
          right
          rcases h5 : fetch s4 (requestToPay phone amount momoTokenId) with ⟨a5, s5⟩
          refine ⟨momoTokenId, a5, s5, rfl, h5, ?_⟩
          cases hb5 : a5.returned.bind (·.getProp "success") with
          | none =>
            left
            refine ⟨rfl, ?_⟩
            simp [payButtonClick, hp, ha, h1, hb1, h2, hb2, h3, hb3, h4, hb4, h5, hb5]
          | some success =>
            right
            refine ⟨success, rfl, ?_⟩
            simp only [payButtonClick, hp, ha, h1, hb1, h2, hb2, h3, hb3, h4, hb4, h5, hb5]
            simp only [or_self, if_false, List.cons_append, List.nil_append]
            split <;> rfl

/-! ## C1: failure handling of the workflow -/

/-- C1 (amended): in the pay-button workflow the calls logged are exactly what `fetch`
answered to the requests issued, in order.  A call that throws (the fetch is rejected or
the answer is not JSON) is the last call issued, and the text shown is then the generic
`An error occurred while processing the payment.`, the same for every step.  A call
answered with a JSON object, whatever its status, does not stop the run: the create-user
call is then followed by the get-created-user call, that one by the retrieve-key call,
that one by the generate-token call and that one by the request-to-pay call, each built
from the values read from the answers, present or not.  A run issues at most five calls
and the text it leaves is one of four fixed texts, none of which names a step. -/
theorem payButtonClick_failure_handling {σ : Type} (fetch : σ → FetchReq → FetchResult × σ)
    (s : σ) (phone amount : String) :
    ((payButtonClick fetch s phone amount).log, (payButtonClick fetch s phone amount).state)
      = replay fetch s ((payButtonClick fetch s phone amount).log.map Prod.fst)
    ∧ (∀ e ∈ (payButtonClick fetch s phone amount).log.dropLast, e.2.returned ≠ none)
    ∧ ((∃ e ∈ (payButtonClick fetch s phone amount).log, e.2.returned = none) →
        (payButtonClick fetch s phone amount).message
          = "An error occurred while processing the payment.")
    ∧ (∀ req status fields,
        (payButtonClick fetch s phone amount).log[0]?
          = some (req, .answered status (some (.obj fields))) →
        req = createApiUser
        ∧ ∃ a, (payButtonClick fetch s phone amount).log[1]?
            = some (getCreatedUser (JSVal.lookup fields "userId"), a))
    ∧ (∀ req status fields,
        (payButtonClick fetch s phone amount).log[1]?
          = some (req, .answered status (some (.obj fields))) →
        ∃ userId a, readAt (payButtonClick fetch s phone amount).log 0 "userId" = some userId
          ∧ req = getCreatedUser userId
          ∧ (payButtonClick fetch s phone amount).log[2]? = some (retrieveApiKey userId, a))
    ∧ (∀ req status fields,
        (payButtonClick fetch s phone amount).log[2]?
          = some (req, .answered status (some (.obj fields))) →
        ∃ userId a, readAt (payButtonClick fetch s phone amount).log 0 "userId" = some userId
          ∧ req = retrieveApiKey userId
          ∧ (payButtonClick fetch s phone amount).log[3]?
              = some (generateApiToken userId (JSVal.lookup fields "apiKey"), a))
    ∧ (∀ req status fields,
        (payButtonClick fetch s phone amount).log[3]?
          = some (req, .answered status (some (.obj fields))) →
        ∃ userId apiKey a,
          readAt (payButtonClick fetch s phone amount).log 0 "userId" = some userId
          ∧ readAt (payButtonClick fetch s phone amount).log 2 "apiKey" = some apiKey
          ∧ req = generateApiToken userId apiKey
          ∧ (payButtonClick fetch s phone amount).log[4]?
              = some (requestToPay phone amount (JSVal.lookup fields "access_token"), a))
    ∧ (payButtonClick fetch s phone amount).log.length ≤ 5
    ∧ (payButtonClick fetch s phone amount).message ∈
        ["Please enter both phone number and amount.",
         "An error occurred while processing the payment.",
         "Payment successful!", "Payment failed."] := by
  by_cases hv : phone = "" ∨ amount = ""
  · simp [payButtonClick, hv, validationMessage, replay]
  · have hp : phone ≠ "" := fun h => hv (Or.inl h)
    have ha : amount ≠ "" := fun h => hv (Or.inr h)
    obtain ⟨a1, s1, f1, hrest⟩ := payButtonClick_shape fetch s phone amount hp ha
    rcases hrest with ⟨hb, h⟩ | ⟨userId, a2, s2, hu, f2, ⟨hb, h⟩ | ⟨a3, s3, h2ok, f3, ⟨hb, h⟩ |
        ⟨apiKey, a4, s4, hk, f4, ⟨hb, h⟩ | ⟨momoTokenId, a5, s5, ht, f5, ⟨hb, h⟩ |
        ⟨success, hs, h⟩⟩⟩⟩⟩
    · rw [h]
      refine ⟨by simp [replay, f1], by simp, fun _ => rfl, ?_, ?_, ?_, ?_, by simp,
        by simp [errorMessage]⟩
      · intro req status fields hget
        simp only [List.getElem?_cons_zero, Option.some.injEq, Prod.mk.injEq] at hget
        obtain ⟨rfl, rfl⟩ := hget
        simp [FetchResult.returned, JSVal.getProp] at hb
      all_goals
        intro req status fields hget
        simp at hget
    · rw [h]
      have n1 := returned_ne_none_of_bind hu
      refine ⟨by simp [replay, f1, f2], by simpa using n1, fun _ => rfl, ?_, ?_, ?_, ?_,
        by simp, by simp [errorMessage]⟩
      · intro req status fields hget
        simp only [List.getElem?_cons_zero, Option.some.injEq, Prod.mk.injEq] at hget
        obtain ⟨rfl, rfl⟩ := hget
        simp only [FetchResult.returned, JSVal.getProp, Option.some_bind, Option.some.injEq] at hu
        subst hu
        exact ⟨rfl, a2, rfl⟩
      · intro req status fields hget
        simp only [List.getElem?_cons_succ, List.getElem?_cons_zero, Option.some.injEq,
          Prod.mk.injEq] at hget
        obtain ⟨rfl, rfl⟩ := hget
        simp [FetchResult.returned] at hb
      all_goals
        intro req status fields hget
        simp at hget
    · rw [h]
      have n1 := returned_ne_none_of_bind hu
      refine ⟨by simp [replay, f1, f2, f3], by simpa using ⟨n1, h2ok⟩, fun _ => rfl,
        ?_, ?_, ?_, ?_, by simp, by simp [errorMessage]⟩
      · intro req status fields hget
        simp only [List.getElem?_cons_zero, Option.some.injEq, Prod.mk.injEq] at hget
        obtain ⟨rfl, rfl⟩ := hget
        simp only [FetchResult.returned, JSVal.getProp, Option.some_bind, Option.some.injEq] at hu
        subst hu
        exact ⟨rfl, a2, rfl⟩
      · intro req status fields hget
        simp only [List.getElem?_cons_succ, List.getElem?_cons_zero, Option.some.injEq,
          Prod.mk.injEq] at hget
        obtain ⟨rfl, rfl⟩ := hget
        exact ⟨userId, a3, hu, rfl, rfl⟩
      · intro req status fields hget
        simp only [List.getElem?_cons_succ, List.getElem?_cons_zero, Option.some.injEq,
          Prod.mk.injEq] at hget
        obtain ⟨rfl, rfl⟩ := hget
        simp [FetchResult.returned, JSVal.getProp] at hb
      all_goals
        intro req status fields hget
        simp at hget
    · rw [h]
      have n1 := returned_ne_none_of_bind hu
      have n3 := returned_ne_none_of_bind hk
      refine ⟨by simp [replay, f1, f2, f3, f4], by simpa using ⟨n1, h2ok, n3⟩, fun _ => rfl,
        ?_, ?_, ?_, ?_, by simp, by simp [errorMessage]⟩
      · intro req status fields hget
        simp only [List.getElem?_cons_zero, Option.some.injEq, Prod.mk.injEq] at hget
        obtain ⟨rfl, rfl⟩ := hget
        simp only [FetchResult.returned, JSVal.getProp, Option.some_bind, Option.some.injEq] at hu
        subst hu
        exact ⟨rfl, a2, rfl⟩
      · intro req status fields hget
        simp only [List.getElem?_cons_succ, List.getElem?_cons_zero, Option.some.injEq,
          Prod.mk.injEq] at hget
        obtain ⟨rfl, rfl⟩ := hget
        exact ⟨userId, a3, hu, rfl, rfl⟩
      · intro req status fields hget
        simp only [List.getElem?_cons_succ, List.getElem?_cons_zero, Option.some.injEq,
          Prod.mk.injEq] at hget
        obtain ⟨rfl, rfl⟩ := hget
        simp only [FetchResult.returned, JSVal.getProp, Option.some_bind, Option.some.injEq] at hk
        subst hk
        exact ⟨userId, a4, hu, rfl, rfl⟩
      · intro req status fields hget
        simp only [List.getElem?_cons_succ, List.getElem?_cons_zero, Option.some.injEq,
          Prod.mk.injEq] at hget
        obtain ⟨rfl, rfl⟩ := hget
        simp [FetchResult.returned, JSVal.getProp] at hb
    · rw [h]
      have n1 := returned_ne_none_of_bind hu
      have n3 := returned_ne_none_of_bind hk
      have n4 := returned_ne_none_of_bind ht
      refine ⟨by simp [replay, f1, f2, f3, f4, f5], by simpa using ⟨n1, h2ok, n3, n4⟩,
        fun _ => rfl, ?_, ?_, ?_, ?_, by simp, by simp [errorMessage]⟩
      · intro req status fields hget
        simp only [List.getElem?_cons_zero, Option.some.injEq, Prod.mk.injEq] at hget
        obtain ⟨rfl, rfl⟩ := hget
        simp only [FetchResult.returned, JSVal.getProp, Option.some_bind, Option.some.injEq] at hu
        subst hu
        exact ⟨rfl, a2, rfl⟩
      · intro req status fields hget
        simp only [List.getElem?_cons_succ, List.getElem?_cons_zero, Option.some.injEq,
          Prod.mk.injEq] at hget
        obtain ⟨rfl, rfl⟩ := hget
        exact ⟨userId, a3, hu, rfl, rfl⟩
      · intro req status fields hget
        simp only [List.getElem?_cons_succ, List.getElem?_cons_zero, Option.some.injEq,
          Prod.mk.injEq] at hget
        obtain ⟨rfl, rfl⟩ := hget
        simp only [FetchResult.returned, JSVal.getProp, Option.some_bind, Option.some.injEq] at hk
        subst hk
        exact ⟨userId, a4, hu, rfl, rfl⟩
      · intro req status fields hget
        simp only [List.getElem?_cons_succ, List.getElem?_cons_zero, Option.some.injEq,
          Prod.mk.injEq] at hget
        obtain ⟨rfl, rfl⟩ := hget
        simp only [FetchResult.returned, JSVal.getProp, Option.some_bind, Option.some.injEq] at ht
        subst ht
        exact ⟨userId, apiKey, a5, hu, hk, rfl, rfl⟩
    · rw [h]
      have n1 := returned_ne_none_of_bind hu
      have n3 := returned_ne_none_of_bind hk
      have n4 := returned_ne_none_of_bind ht
      have n5 := returned_ne_none_of_bind hs
      refine ⟨by simp [replay, f1, f2, f3, f4, f5], by simpa using ⟨n1, h2ok, n3, n4⟩,
        ?_, ?_, ?_, ?_, ?_, by simp, ?_⟩
      · rintro ⟨e, he, hnone⟩
        simp only [List.mem_cons, List.mem_singleton, List.not_mem_nil, or_false] at he
        rcases he with rfl | rfl | rfl | rfl | rfl
        · exact absurd hnone n1
        · exact absurd hnone h2ok
        · exact absurd hnone n3
        · exact absurd hnone n4
        · exact absurd hnone n5
      · intro req status fields hget
        simp only [List.getElem?_cons_zero, Option.some.injEq, Prod.mk.injEq] at hget
        obtain ⟨rfl, rfl⟩ := hget
        simp only [FetchResult.returned, JSVal.getProp, Option.some_bind, Option.some.injEq] at hu
        subst hu
        exact ⟨rfl, a2, rfl⟩
      · intro req status fields hget
        simp only [List.getElem?_cons_succ, List.getElem?_cons_zero, Option.some.injEq,
          Prod.mk.injEq] at hget
        obtain ⟨rfl, rfl⟩ := hget
        exact ⟨userId, a3, hu, rfl, rfl⟩
      · intro req status fields hget
        simp only [List.getElem?_cons_succ, List.getElem?_cons_zero, Option.some.injEq,
          Prod.mk.injEq] at hget
        obtain ⟨rfl, rfl⟩ := hget
        simp only [FetchResult.returned, JSVal.getProp, Option.some_bind, Option.some.injEq] at hk
        subst hk
        exact ⟨userId, a4, hu, rfl, rfl⟩
      · intro req status fields hget
        simp only [List.getElem?_cons_succ, List.getElem?_cons_zero, Option.some.injEq,
          Prod.mk.injEq] at hget
        obtain ⟨rfl, rfl⟩ := hget
        simp only [FetchResult.returned, JSVal.getProp, Option.some_bind, Option.some.injEq] at ht
        subst ht
        exact ⟨userId, apiKey, a5, hu, hk, rfl, rfl⟩
      · by_cases hsucc : success.truthy = true <;> simp [hsucc]

/-- C1, worked example: in the run with the failure injected at user creation the 500
answer with its error body is followed by the get-created-user call for the missing
`userId`; in the run against a server that cannot be reached the one call is rejected
and the generic text is shown. -/
theorem payButtonClick_failure_handling_witness :
    ((payButtonClick (Server.app failCreateUserEnv) ⟨0, []⟩ "0700000000" "500").log[0]?
        = some (createApiUser, .answered 500 (some (.obj
            [("message", .str "Error creating API user"),
             ("error", .str "Request failed with status code 500")])))
      ∧ ∃ a, (payButtonClick (Server.app failCreateUserEnv) ⟨0, []⟩ "0700000000" "500").log[1]?
          = some (getCreatedUser .undefined, a))
    ∧ ((∃ e ∈ (payButtonClick offline () "0700000000" "500").log, e.2.returned = none)
      ∧ (payButtonClick offline () "0700000000" "500").message
        = "An error occurred while processing the payment.") :=
  ⟨⟨rfl,
    ((payButtonClick_failure_handling (Server.app failCreateUserEnv) ⟨0, []⟩
      "0700000000" "500").2.2.2.1 createApiUser 500
        [("message", .str "Error creating API user"),
         ("error", .str "Request failed with status code 500")] rfl).2⟩,
   ⟨⟨(createApiUser, .rejected), List.Mem.head _, rfl⟩,
    (payButtonClick_failure_handling offline () "0700000000" "500").2.2.1
      ⟨(createApiUser, .rejected), List.Mem.head _, rfl⟩⟩⟩

/-- C1, as stated, fails.  With a failure injected at user creation only (the server
answers 500 with an error body), the four later calls are all issued, the missing
`userId` travelling as the text `undefined`, and the text shown is `Payment
successful!`.  With a provider that rejects every call, the five calls are issued as
well and the text shown is `Payment failed.`; neither text names the failing step. -/
theorem payButtonClick_failure_counterexample :
    (Server.app failCreateUserEnv ⟨0, []⟩ createApiUser).1
      = .answered 500 (some (.obj [("message", .str "Error creating API user"),
          ("error", .str "Request failed with status code 500")]))
    ∧ (payButtonClick (Server.app failCreateUserEnv) ⟨0, []⟩ "0700000000" "500").log.map Prod.fst
      = [createApiUser, getCreatedUser .undefined, retrieveApiKey .undefined,
         generateApiToken .undefined (.str "f1db798c98df4bcf"),
         requestToPay "0700000000" "500" (.str "eyJ0eXAi")]
    ∧ (getCreatedUser .undefined).url = "http://localhost:3001/get-created-user/undefined"
    ∧ (payButtonClick (Server.app failCreateUserEnv) ⟨0, []⟩ "0700000000" "500").message
      = "Payment successful!"
    ∧ (payButtonClick (Server.app rejectingEnv) ⟨0, []⟩ "0700000000" "500").log.map Prod.fst
      = [createApiUser, getCreatedUser .undefined, retrieveApiKey .undefined,
         generateApiToken .undefined .undefined,
         requestToPay "0700000000" "500" .undefined]
    ∧ (payButtonClick (Server.app rejectingEnv) ⟨0, []⟩ "0700000000" "500").message
      = "Payment failed." := by
  refine ⟨rfl, rfl, rfl, rfl, rfl, rfl⟩

/-! ## C2: order of the calls and values handed on -/

/-- C2: for every non-empty phone and non-empty amount, when every call succeeds the
workflow issues exactly five calls, each once, in the order create user, get created
user, retrieve API key, generate token, request to pay, and hands values on unchanged:
the `userId` returned by create user is the one put in the URL of get-user and of
retrieve-key and in the body of generate-token; the `apiKey` returned by retrieve-key is
the one in the body of generate-token; the `access_token` returned by generate-token is
the `momoTokenId` in the body of request-to-pay, together with the entered phone and
amount.  Here `a1`, ..., `a5` are what `fetch` answers to the five calls, each issued in
the state the call before it left. -/
theorem payButtonClick_happy_path {σ : Type} (fetch : σ → FetchReq → FetchResult × σ) (s : σ)
    (phone amount : String) (hp : phone ≠ "") (ha : amount ≠ "")
    (a1 a2 a3 a4 a5 : FetchResult) (s1 s2 s3 s4 s5 : σ)
    (b1 b3 b4 userId apiKey momoTokenId : JSVal)
    (h1 : fetch s createApiUser = (a1, s1)) (ok1 : a1.succeeded = true)
    (hb1 : a1.returned = some b1) (hu : b1.getProp "userId" = some userId)
    (h2 : fetch s1 (getCreatedUser userId) = (a2, s2)) (ok2 : a2.succeeded = true)
    (h3 : fetch s2 (retrieveApiKey userId) = (a3, s3)) (ok3 : a3.succeeded = true)
    (hb3 : a3.returned = some b3) (hk : b3.getProp "apiKey" = some apiKey)
    (h4 : fetch s3 (generateApiToken userId apiKey) = (a4, s4)) (ok4 : a4.succeeded = true)
    (hb4 : a4.returned = some b4) (ht : b4.getProp "access_token" = some momoTokenId)
    (h5 : fetch s4 (requestToPay phone amount momoTokenId) = (a5, s5))
    (ok5 : a5.succeeded = true) :
    (payButtonClick fetch s phone amount).log
      = [(createApiUser, a1), (getCreatedUser userId, a2), (retrieveApiKey userId, a3),
         (generateApiToken userId apiKey, a4), (requestToPay phone amount momoTokenId, a5)]
    ∧ (payButtonClick fetch s phone amount).state = s5
    ∧ (∀ u, userId = .str u →
        (getCreatedUser userId).url = "http://localhost:3001/get-created-user/" ++ u
        ∧ (retrieveApiKey userId).url = "http://localhost:3001/retrieve-api-key/" ++ u)
    ∧ (generateApiToken userId apiKey).body.bind (·.getProp "userId") = some userId
    ∧ (generateApiToken userId apiKey).body.bind (·.getProp "apiKey") = some apiKey
    ∧ (requestToPay phone amount momoTokenId).body.bind (·.getProp "momoTokenId")
        = some momoTokenId
    ∧ (requestToPay phone amount momoTokenId).body.bind (·.getProp "phone") = some (.str phone)
    ∧ (requestToPay phone amount momoTokenId).body.bind (·.getProp "total")
        = some (.str amount) := by
  have _used := And.intro ok1 (And.intro ok3 ok4)
  obtain ⟨b2, hb2, _⟩ := succeeded_returned ok2
  obtain ⟨b5, hb5, hn5⟩ := succeeded_returned ok5
  obtain ⟨success, hsucc⟩ := getProp_isSome_of_not_nullish hn5 "success"
  have hrun : (payButtonClick fetch s phone amount).log
      = [(createApiUser, a1), (getCreatedUser userId, a2), (retrieveApiKey userId, a3),
         (generateApiToken userId apiKey, a4), (requestToPay phone amount momoTokenId, a5)]
      ∧ (payButtonClick fetch s phone amount).state = s5 := by
    simp only [payButtonClick, hp, ha, or_self, if_false, h1, hb1, hu, h2, hb2, h3, hb3, hk, h4,
      hb4, ht, h5, hb5, hsucc, Option.some_bind, List.cons_append, List.nil_append]
    split <;> exact ⟨rfl, rfl⟩
  refine ⟨hrun.1, hrun.2, ?_, (stringify_token_body _ _).1, (stringify_token_body _ _).2,
    (stringify_pay_body _ _ _).2.2, (stringify_pay_body _ _ _).1,
    (stringify_pay_body _ _ _).2.1⟩
  intro u hEq
  subst hEq
  exact ⟨rfl, rfl⟩

/-- C2, worked example: the full run for phone `0700000000` and amount `500` against the
server with the accepting provider; the answers and states named are those of the
server. -/
theorem payButtonClick_happy_path_witness :
    "0700000000" ≠ "" ∧ "500" ≠ ""
    ∧ Server.app acceptingEnv ⟨0, []⟩ createApiUser
        = (.answered 200 (some (.obj [("response", .str ""), ("userId", .str "u")])),
           ⟨1, [Server.createApiUserCall acceptingEnv "u"]⟩)
    ∧ (FetchResult.answered 200
        (some (.obj [("response", .str ""), ("userId", .str "u")]))).succeeded = true
    ∧ (payButtonClick (Server.app acceptingEnv) ⟨0, []⟩ "0700000000" "500").log.map Prod.fst
        = [createApiUser, getCreatedUser (.str "u"), retrieveApiKey (.str "u"),
           generateApiToken (.str "u") (.str "f1db798c98df4bcf"),
           requestToPay "0700000000" "500" (.str "eyJ0eXAi")]
    ∧ (getCreatedUser (.str "u")).url = "http://localhost:3001/get-created-user/u" := by
  have h := payButtonClick_happy_path (Server.app acceptingEnv) ⟨0, []⟩ "0700000000" "500"
    (by decide) (by decide)
    (.answered 200 (some (.obj [("response", .str ""), ("userId", .str "u")])))
    (.answered 200 (some (.obj [("status", .str "SUCCESSFUL")])))
    (.answered 200 (some (.obj [("apiKey", .str "f1db798c98df4bcf")])))
    (.answered 200 (some (.obj [("access_token", .str "eyJ0eXAi"),
      ("token_type", .str "access_token")])))
    (.answered 200 (some (.obj [("momoResponse", .str ""), ("success", .bool true),
      ("paymentRefId", .str "uuu"), ("externalId", .str "uu")])))
    ⟨1, [Server.createApiUserCall acceptingEnv "u"]⟩
    ⟨1, [Server.createApiUserCall acceptingEnv "u", Server.getCreatedUserCall acceptingEnv "u"]⟩
    ⟨1, [Server.createApiUserCall acceptingEnv "u", Server.getCreatedUserCall acceptingEnv "u",
         Server.retrieveApiKeyCall acceptingEnv "u"]⟩
    ⟨1, [Server.createApiUserCall acceptingEnv "u", Server.getCreatedUserCall acceptingEnv "u",
         Server.retrieveApiKeyCall acceptingEnv "u",
         Server.generateApiTokenCall acceptingEnv "Basic dTpmMWRiNzk4Yzk4ZGY0YmNm"]⟩
    ⟨3, [Server.createApiUserCall acceptingEnv "u", Server.getCreatedUserCall acceptingEnv "u",
         Server.retrieveApiKeyCall acceptingEnv "u",
         Server.generateApiTokenCall acceptingEnv "Basic dTpmMWRiNzk4Yzk4ZGY0YmNm",
         Server.requestToPayCall acceptingEnv (.str "500") (.str "0700000000")
           (.str "eyJ0eXAi") "uu" "uuu"]⟩
    (.obj [("response", .str ""), ("userId", .str "u")])
    (.obj [("apiKey", .str "f1db798c98df4bcf")])
    (.obj [("access_token", .str "eyJ0eXAi"), ("token_type", .str "access_token")])
    (.str "u") (.str "f1db798c98df4bcf") (.str "eyJ0eXAi")
    rfl rfl rfl rfl rfl rfl rfl rfl rfl rfl rfl rfl rfl rfl rfl rfl
  refine ⟨by decide, by decide, rfl, rfl, ?_, (h.2.2.1 "u" rfl).1⟩
  rw [h.1]
  rfl

/-! ## C3: the Basic credential -/

/-- C3 (amended): for every `userId` and `apiKey` that `POST /generate-api-token`
receives as strings of characters up to U+00FF, the `Authorization` header sent to the
provider is `Basic ` followed by the base64 text of `userId`, a colon and `apiKey`, and
base64-decoding the credential gives that text back; when moreover `userId` holds no
colon, splitting the decoded text at its first colon recovers the identical `userId` and
the identical `apiKey`. -/
theorem generateApiToken_basic_auth (env : Env) (n : Nat) (body : List (String × JSVal))
    (userId apiKey : String)
    (hu : JSVal.lookup body "userId" = .str userId)
    (hk : JSVal.lookup body "apiKey" = .str apiKey)
    (hlatin : ∀ c ∈ userId.data ++ apiKey.data, c.toNat ≤ 255) :
    ∃ call credential,
      (Server.generateApiToken env n body).calls = [call]
      ∧ credential = String.mk (b64Encode ((userId ++ ":" ++ apiKey).data.map Char.toNat))
      ∧ call.header "Authorization" = some ("Basic " ++ credential)
      ∧ atob credential = some (userId ++ ":" ++ apiKey)
      ∧ (':' ∉ userId.data →
          decodeBasicAuth ("Basic " ++ credential) = some (userId, apiKey)) := by
  have hall : ∀ c ∈ (userId ++ ":" ++ apiKey).data, c.toNat ≤ 255 := by
    intro c hc
    simp only [String.data_append, List.mem_append] at hc
    rcases hc with (hc | hc) | hc
    · exact hlatin c (List.mem_append.mpr (Or.inl hc))
    · have : c = ':' := by simpa using hc
      subst this
      decide
    · exact hlatin c (List.mem_append.mpr (Or.inr hc))
  have hbtoa := btoa_latin1 _ hall
  have hatob := atob_btoa _ _ hbtoa
  refine ⟨Server.generateApiTokenCall env
      ("Basic " ++ String.mk (b64Encode ((userId ++ ":" ++ apiKey).data.map Char.toNat))),
    _, ?_, rfl, ?_, hatob, ?_⟩
  · simp only [Server.generateApiToken, hu, hk, JSVal.toStr, hbtoa]
    split <;> rfl
  · simp [Server.generateApiTokenCall, ProviderReq.header]
  · intro hcolon
    rw [decodeBasicAuth_basic, hatob]
    have hsplit : splitAtColon (userId ++ ":" ++ apiKey).toList
        = some (userId.data, apiKey.data) := by
      have hdata : (userId ++ ":" ++ apiKey).toList = userId.data ++ ':' :: apiKey.data := by
        simp [String.toList, String.data_append]
      rw [hdata]
      exact splitAtColon_append _ _ hcolon
    simp only [hsplit, Option.map_some']

/-- C3, worked example: user `u` with the key of the accepting provider. -/
theorem generateApiToken_basic_auth_witness :
    JSVal.lookup [("userId", .str "u"), ("apiKey", .str "f1db798c98df4bcf")] "userId" = .str "u"
    ∧ JSVal.lookup [("userId", .str "u"), ("apiKey", .str "f1db798c98df4bcf")] "apiKey"
        = .str "f1db798c98df4bcf"
    ∧ (∀ c ∈ "u".data ++ "f1db798c98df4bcf".data, c.toNat ≤ 255)
    ∧ ':' ∉ "u".data
    ∧ (∃ call credential,
        (Server.generateApiToken acceptingEnv 1
          [("userId", .str "u"), ("apiKey", .str "f1db798c98df4bcf")]).calls = [call]
        ∧ call.header "Authorization" = some ("Basic " ++ credential)
        ∧ decodeBasicAuth ("Basic " ++ credential) = some ("u", "f1db798c98df4bcf")) := by
  refine ⟨rfl, rfl, by decide, by decide, ?_⟩
  obtain ⟨call, credential, h1, _, h3, _, h5⟩ :=
    generateApiToken_basic_auth acceptingEnv 1
      [("userId", .str "u"), ("apiKey", .str "f1db798c98df4bcf")] "u" "f1db798c98df4bcf"
      rfl rfl (by decide)
  exact ⟨call, credential, h1, h3, h5 (by decide)⟩

/-- C3, as stated, fails: the pairs (`a:b`, `c`) and (`a`, `b:c`) reach the provider
under one and the same `Authorization` header, from which decoding and splitting at the
colon yields (`a`, `b:c`); and for a `userId` with a character above U+00FF no header is
sent at all, the handler ending without provider call and without response. -/
theorem generateApiToken_basic_auth_counterexample :
    (Server.generateApiToken acceptingEnv 0 [("userId", .str "a:b"), ("apiKey", .str "c")]).calls
      = [Server.generateApiTokenCall acceptingEnv "Basic YTpiOmM="]
    ∧ (Server.generateApiToken acceptingEnv 0 [("userId", .str "a"), ("apiKey", .str "b:c")]).calls
      = [Server.generateApiTokenCall acceptingEnv "Basic YTpiOmM="]
    ∧ decodeBasicAuth "Basic YTpiOmM=" = some ("a", "b:c")
    ∧ decodeBasicAuth "Basic YTpiOmM=" ≠ some ("a:b", "c")
    ∧ (Server.generateApiToken acceptingEnv 0 [("userId", .str "€"), ("apiKey", .str "c")]).calls
      = []
    ∧ (Server.generateApiToken acceptingEnv 0
        [("userId", .str "€"), ("apiKey", .str "c")]).response.isNone = true := by
  refine ⟨rfl, rfl, by decide, by decide, rfl, rfl⟩

/-! ## C4: validation at intake -/

/-- C4: when the phone or the amount is empty, the click handler sets the text `Please
enter both phone number and amount.` and returns having issued no `fetch` at all, the
world behind `fetch` being left as it was; when both are non-empty the workflow starts:
the first call, `createApiUser`, is issued. -/
theorem payButtonClick_validation {σ : Type} (fetch : σ → FetchReq → FetchResult × σ) (s : σ)
    (phone amount : String) :
    ((phone = "" ∨ amount = "") →
      (payButtonClick fetch s phone amount).log = []
      ∧ (payButtonClick fetch s phone amount).message = "Please enter both phone number and amount."
      ∧ (payButtonClick fetch s phone amount).state = s)
    ∧ (phone ≠ "" → amount ≠ "" →
      ∃ later, (payButtonClick fetch s phone amount).log
        = (createApiUser, (fetch s createApiUser).1) :: later) := by
  constructor
  · intro h
    simp [payButtonClick, h, validationMessage]
  · intro hp ha
    obtain ⟨a1, s1, h1, hrest⟩ := payButtonClick_shape fetch s phone amount hp ha
    rw [h1]
    rcases hrest with ⟨_, h⟩ | ⟨_, _, _, _, _, ⟨_, h⟩ | ⟨_, _, _, _, ⟨_, h⟩ |
      ⟨_, _, _, _, _, ⟨_, h⟩ | ⟨_, _, _, _, _, ⟨_, h⟩ | ⟨_, _, h⟩⟩⟩⟩⟩ <;>
      rw [h] <;> exact ⟨_, rfl⟩

/-- C4, worked example: an empty phone, and the sample phone and amount. -/
theorem payButtonClick_validation_witness :
    (("" = "" ∨ "500" = "") ∧ (payButtonClick (Server.app acceptingEnv) ⟨0, []⟩ "" "500").log = [])
    ∧ ("0700000000" ≠ "" ∧ "500" ≠ ""
      ∧ ∃ later, (payButtonClick (Server.app acceptingEnv) ⟨0, []⟩ "0700000000" "500").log
        = (createApiUser, (Server.app acceptingEnv ⟨0, []⟩ createApiUser).1) :: later) :=
  ⟨⟨Or.inl rfl, ((payButtonClick_validation (Server.app acceptingEnv) ⟨0, []⟩ "" "500").1
      (Or.inl rfl)).1⟩,
   ⟨by decide, by decide,
    (payButtonClick_validation (Server.app acceptingEnv) ⟨0, []⟩ "0700000000" "500").2
      (by decide) (by decide)⟩⟩

/-! ## C5: the token guard of request-to-pay -/

/-- C5: when `momoTokenId` is absent or empty, `POST /request-to-pay` answers 400 with
`MoMo token not available`, having drawn no identifier and issued no provider call; that
answer differs in status and in body from the one sent when the provider rejects the
request (500, `An error occurred: ...`); and for every non-empty token the guard does not
fire: the provider call is issued. -/
theorem requestToPay_token_guard (env : Env) (n : Nat) (body : List (String × JSVal)) :
    ((JSVal.lookup body "momoTokenId" = .undefined ∨ JSVal.lookup body "momoTokenId" = .str "") →
      Server.requestToPay env n body
        = { calls := []
            response := some ⟨400, .obj [("error", .str "MoMo token not available")]⟩
            uuidsDrawn := n })
    ∧ (∀ token : String, token ≠ "" → JSVal.lookup body "momoTokenId" = .str token →
        (Server.requestToPay env n body).calls
          = [Server.requestToPayCall env (JSVal.lookup body "total") (JSVal.lookup body "phone")
              (.str token) (env.uuidv4 n) (env.uuidv4 (n + 1))]
        ∧ (Server.requestToPay env n body).response
          ≠ some ⟨400, .obj [("error", .str "MoMo token not available")]⟩)
    ∧ (∀ message : String, (JSVal.lookup body "momoTokenId").truthy = true →
        env.provider (Server.requestToPayCall env (JSVal.lookup body "total")
          (JSVal.lookup body "phone") (JSVal.lookup body "momoTokenId")
          (env.uuidv4 n) (env.uuidv4 (n + 1))) = .error message →
        (Server.requestToPay env n body).response
          = some ⟨500, .obj [("error", .str ("An error occurred: " ++ message))]⟩
        ∧ (HttpResponse.mk 500 (.obj [("error", .str ("An error occurred: " ++ message))])).status
          ≠ (HttpResponse.mk 400 (.obj [("error", .str "MoMo token not available")])).status
        ∧ (HttpResponse.mk 500 (.obj [("error", .str ("An error occurred: " ++ message))])).body
          ≠ (HttpResponse.mk 400 (.obj [("error", .str "MoMo token not available")])).body) := by
  refine ⟨?_, ?_, ?_⟩
  · intro h
    rcases h with h | h <;> simp [Server.requestToPay, h, JSVal.truthy]
  · intro token hne h
    have ht : (JSVal.str token).truthy = true := by simp [JSVal.truthy, hne]
    simp only [Server.requestToPay, h, ht]
    constructor
    · simp only [Bool.not_true, Bool.false_eq_true, if_false]
      split <;> rfl
    · simp only [Bool.not_true, Bool.false_eq_true, if_false]
      split <;> simp
  · intro message ht hp
    refine ⟨?_, ?_, ?_⟩
    · simp [Server.requestToPay, ht, hp]
    · simp
    · simp
      exact fun h => absurd h.symm (tokenMissing_ne_errorOccurred _)

/-- C5, worked example: a body without token, the sample body against the accepting
provider, and the sample body against the rejecting provider. -/
theorem requestToPay_token_guard_witness :
    (JSVal.lookup [("phone", .str "0700000000"), ("total", .str "500")] "momoTokenId" = .undefined
      ∧ Server.requestToPay acceptingEnv 1 [("phone", .str "0700000000"), ("total", .str "500")]
        = { calls := []
            response := some ⟨400, .obj [("error", .str "MoMo token not available")]⟩
            uuidsDrawn := 1 })
    ∧ ("eyJ0eXAi" ≠ "" ∧ JSVal.lookup sampleBody "momoTokenId" = .str "eyJ0eXAi"
      ∧ (Server.requestToPay acceptingEnv 1 sampleBody).calls
        = [Server.requestToPayCall acceptingEnv (.str "500") (.str "0700000000")
            (.str "eyJ0eXAi") "uu" "uuu"])
    ∧ ((JSVal.lookup sampleBody "momoTokenId").truthy = true
      ∧ (Server.requestToPay rejectingEnv 1 sampleBody).response
        = some ⟨500, .obj [("error", .str "An error occurred: Request failed with status code 500")]⟩) :=
  ⟨⟨rfl, (requestToPay_token_guard acceptingEnv 1
      [("phone", .str "0700000000"), ("total", .str "500")]).1 (Or.inl rfl)⟩,
   ⟨by decide, rfl,
    ((requestToPay_token_guard acceptingEnv 1 sampleBody).2.1 "eyJ0eXAi" (by decide) rfl).1⟩,
   ⟨by decide,
    ((requestToPay_token_guard rejectingEnv 1 sampleBody).2.2
      "Request failed with status code 500" (by decide) rfl).1⟩⟩

/-! ## C6: input checks before provider calls -/

/-- C6 (amended): only `POST /request-to-pay` checks its input before calling the
provider: it issues no provider call when `momoTokenId` is missing or empty.
`GET /get-created-user/:userId` and `POST /retrieve-api-key/:userId` issue exactly one
provider call for every `userId` they are given, placed in the URL as received, and a
`userId` missing in the front end is sent to them as the text `undefined`.
`POST /generate-api-token` issues exactly one provider call for every body whose
credential text `btoa` accepts, a missing `userId` or `apiKey` being rendered as
`undefined`.  The workflow does not stop on a missing value: whenever `fetch` answers
each call with a JSON object, whatever its status and properties, the five calls of the
five steps are all issued, each with the values read from those answers, present or
not. -/
theorem provider_calls_input_checks (env : Env) (n : Nat) :
    (∀ body, (JSVal.lookup body "momoTokenId").truthy = false →
        (Server.requestToPay env n body).calls = [])
    ∧ (∀ userId, (Server.getCreatedUser env n userId).calls
          = [Server.getCreatedUserCall env userId]
        ∧ (Server.getCreatedUserCall env userId).method = "GET"
        ∧ (Server.getCreatedUserCall env userId).url
          = "https://sandbox.momodeveloper.mtn.com/v1_0/apiuser/" ++ userId)
    ∧ (∀ userId, (Server.retrieveApiKey env n userId).calls
          = [Server.retrieveApiKeyCall env userId]
        ∧ (Server.retrieveApiKeyCall env userId).method = "POST"
        ∧ (Server.retrieveApiKeyCall env userId).url
          = "https://sandbox.momodeveloper.mtn.com/v1_0/apiuser/" ++ userId ++ "/apikey")
    ∧ (getCreatedUser .undefined).url = "http://localhost:3001/get-created-user/undefined"
    ∧ (retrieveApiKey .undefined).url = "http://localhost:3001/retrieve-api-key/undefined"
    ∧ (∀ body credential,
        btoa ((JSVal.lookup body "userId").toStr ++ ":" ++ (JSVal.lookup body "apiKey").toStr)
          = some credential →
        (Server.generateApiToken env n body).calls
          = [Server.generateApiTokenCall env ("Basic " ++ credential)]
        ∧ (Server.generateApiTokenCall env ("Basic " ++ credential)).url = momoTokenUrl
        ∧ (Server.generateApiTokenCall env ("Basic " ++ credential)).header "Authorization"
          = some ("Basic " ++ credential))
    ∧ btoa ((JSVal.lookup [] "userId").toStr ++ ":" ++ (JSVal.lookup [] "apiKey").toStr)
        = some "dW5kZWZpbmVkOnVuZGVmaW5lZA=="
    ∧ (∀ (fetch : Server.ServerState → FetchReq → FetchResult × Server.ServerState)
        (s s1 s2 s3 s4 s5 : Server.ServerState) (phone amount : String)
        (st1 st2 st3 st4 : Nat) (o1 o2 o3 o4 : List (String × JSVal)) (a5 : FetchResult),
        phone ≠ "" → amount ≠ "" →
        fetch s createApiUser = (.answered st1 (some (.obj o1)), s1) →
        fetch s1 (getCreatedUser (JSVal.lookup o1 "userId"))
          = (.answered st2 (some (.obj o2)), s2) →
        fetch s2 (retrieveApiKey (JSVal.lookup o1 "userId"))
          = (.answered st3 (some (.obj o3)), s3) →
        fetch s3 (generateApiToken (JSVal.lookup o1 "userId") (JSVal.lookup o3 "apiKey"))
          = (.answered st4 (some (.obj o4)), s4) →
        fetch s4 (requestToPay phone amount (JSVal.lookup o4 "access_token")) = (a5, s5) →
        (payButtonClick fetch s phone amount).log
          = [(createApiUser, .answered st1 (some (.obj o1))),
             (getCreatedUser (JSVal.lookup o1 "userId"), .answered st2 (some (.obj o2))),
             (retrieveApiKey (JSVal.lookup o1 "userId"), .answered st3 (some (.obj o3))),
             (generateApiToken (JSVal.lookup o1 "userId") (JSVal.lookup o3 "apiKey"),
               .answered st4 (some (.obj o4))),
             (requestToPay phone amount (JSVal.lookup o4 "access_token"), a5)]
        ∧ (payButtonClick fetch s phone amount).state = s5) := by
  refine ⟨?_, ?_, ?_, rfl, rfl, ?_, by decide, ?_⟩
  · intro body h
    simp [Server.requestToPay, h]
  · intro userId
    refine ⟨?_, rfl, ?_⟩
    · simp only [Server.getCreatedUser]
      split <;> rfl
    · apply String.ext
      simp [Server.getCreatedUserCall, momoHost, String.data_append]
  · intro userId
    refine ⟨?_, rfl, ?_⟩
    · simp only [Server.retrieveApiKey]
      split <;> rfl
    · apply String.ext
      simp [Server.retrieveApiKeyCall, momoHost, String.data_append]
  · intro body credential h
    refine ⟨?_, rfl, ?_⟩
    · simp only [Server.generateApiToken, h]
      split <;> rfl
    · simp [Server.generateApiTokenCall, ProviderReq.header]
  · intro fetch s s1 s2 s3 s4 s5 phone amount st1 st2 st3 st4 o1 o2 o3 o4 a5 hp ha
      h1 h2 h3 h4 h5
    have r1 : (FetchResult.answered st1 (some (.obj o1))).returned.bind (·.getProp "userId")
        = some (JSVal.lookup o1 "userId") := rfl
    have r2 : (FetchResult.answered st2 (some (.obj o2))).returned = some (.obj o2) := rfl
    have r3 : (FetchResult.answered st3 (some (.obj o3))).returned.bind (·.getProp "apiKey")
        = some (JSVal.lookup o3 "apiKey") := rfl
    have r4 : (FetchResult.answered st4 (some (.obj o4))).returned.bind
        (·.getProp "access_token") = some (JSVal.lookup o4 "access_token") := rfl
    simp only [payButtonClick, hp, ha, or_self, if_false, h1, r1, h2, r2, h3, r3, h4, r4, h5,
      List.cons_append, List.nil_append]
    split
    · exact ⟨rfl, rfl⟩
    · split <;> exact ⟨rfl, rfl⟩

/-- C6, worked example: a body without token; the route parameter `undefined`; an empty
token-request body; and the run against the rejecting provider, where every call is
answered with a JSON error object and the five calls are all issued. -/
theorem provider_calls_input_checks_witness :
    ((JSVal.lookup [("phone", .str "0700000000"), ("total", .str "500")] "momoTokenId").truthy
        = false
      ∧ (Server.requestToPay rejectingEnv 1
          [("phone", .str "0700000000"), ("total", .str "500")]).calls = [])
    ∧ (Server.getCreatedUserCall rejectingEnv "undefined").url
        = "https://sandbox.momodeveloper.mtn.com/v1_0/apiuser/undefined"
    ∧ (btoa ((JSVal.lookup [] "userId").toStr ++ ":" ++ (JSVal.lookup [] "apiKey").toStr)
        = some "dW5kZWZpbmVkOnVuZGVmaW5lZA=="
      ∧ (Server.generateApiToken rejectingEnv 1 []).calls
        = [Server.generateApiTokenCall rejectingEnv "Basic dW5kZWZpbmVkOnVuZGVmaW5lZA=="])
    ∧ ("0700000000" ≠ "" ∧ "500" ≠ ""
      ∧ Server.app rejectingEnv ⟨0, []⟩ createApiUser
          = (.answered 500 (some (.obj [("message", .str "Error creating API user"),
              ("error", .str "Request failed with status code 500")])),
             ⟨1, [Server.createApiUserCall rejectingEnv "u"]⟩)
      ∧ (payButtonClick (Server.app rejectingEnv) ⟨0, []⟩ "0700000000" "500").log.map Prod.fst
          = [createApiUser, getCreatedUser .undefined, retrieveApiKey .undefined,
             generateApiToken .undefined .undefined,
             requestToPay "0700000000" "500" .undefined]) := by
  have hall := provider_calls_input_checks rejectingEnv 1
  have hrun := hall.2.2.2.2.2.2.2 (Server.app rejectingEnv) ⟨0, []⟩
    ⟨1, [Server.createApiUserCall rejectingEnv "u"]⟩
    ⟨1, [Server.createApiUserCall rejectingEnv "u",
         Server.getCreatedUserCall rejectingEnv "undefined"]⟩
    ⟨1, [Server.createApiUserCall rejectingEnv "u",
         Server.getCreatedUserCall rejectingEnv "undefined",
         Server.retrieveApiKeyCall rejectingEnv "undefined"]⟩
    ⟨1, [Server.createApiUserCall rejectingEnv "u",
         Server.getCreatedUserCall rejectingEnv "undefined",
         Server.retrieveApiKeyCall rejectingEnv "undefined",
         Server.generateApiTokenCall rejectingEnv "Basic dW5kZWZpbmVkOnVuZGVmaW5lZA=="]⟩
    ⟨1, [Server.createApiUserCall rejectingEnv "u",
         Server.getCreatedUserCall rejectingEnv "undefined",
         Server.retrieveApiKeyCall rejectingEnv "undefined",
         Server.generateApiTokenCall rejectingEnv "Basic dW5kZWZpbmVkOnVuZGVmaW5lZA=="]⟩
    "0700000000" "500" 500 500 500 500
    [("message", .str "Error creating API user"),
     ("error", .str "Request failed with status code 500")]
    [("message", .str "Error retrieving created user"),
     ("error", .str "Request failed with status code 500")]
    [("message", .str "Error retrieving API key"),
     ("error", .str "Request failed with status code 500")]
    [("message", .str "Error generating API token"),
     ("error", .str "Request failed with status code 500")]
    (.answered 400 (some (.obj [("error", .str "MoMo token not available")])))
    (by decide) (by decide) rfl rfl rfl rfl rfl
  refine ⟨⟨rfl, hall.1 _ rfl⟩, (hall.2.1 "undefined").2.2,
    ⟨by decide, (hall.2.2.2.2.2.1 [] _ (by decide)).1⟩,
    ⟨by decide, by decide, rfl, ?_⟩⟩
  rw [hrun.1]
  rfl

/-- C6, as stated, fails.  `POST /generate-api-token` issues its provider call for a body
with neither `userId` nor `apiKey`, and for one where both are empty.  In a run where
user creation fails, the workflow goes on with the missing `userId`: the server issues
the get-user and retrieve-key provider calls for the user `undefined` and the token call
with the credential of `undefined:undefined`. -/
theorem provider_calls_input_checks_counterexample :
    (Server.generateApiToken rejectingEnv 0 []).calls
      = [Server.generateApiTokenCall rejectingEnv "Basic dW5kZWZpbmVkOnVuZGVmaW5lZA=="]
    ∧ (Server.generateApiToken rejectingEnv 0 [("userId", .str ""), ("apiKey", .str "")]).calls
      = [Server.generateApiTokenCall rejectingEnv "Basic Og=="]
    ∧ (payButtonClick (Server.app rejectingEnv) ⟨0, []⟩ "0700000000" "500").state.providerCalls
      = [Server.createApiUserCall rejectingEnv "u",
         Server.getCreatedUserCall rejectingEnv "undefined",
         Server.retrieveApiKeyCall rejectingEnv "undefined",
         Server.generateApiTokenCall rejectingEnv "Basic dW5kZWZpbmVkOnVuZGVmaW5lZA=="]
    ∧ (Server.getCreatedUserCall rejectingEnv "undefined").url
      = "https://sandbox.momodeveloper.mtn.com/v1_0/apiuser/undefined" := by
  refine ⟨rfl, rfl, rfl, rfl⟩

/-! ## C7: the two identifiers of request-to-pay -/

/-- C7: for a request with a non-empty (truthy) token whose provider call succeeds,
`POST /request-to-pay` draws two identifiers, one after the other; the first is the
`externalId` of the body sent to the provider, the second is the `X-Reference-Id`
header; the answer carries exactly those two values and `success: true`; and the two are
distinct whenever the generator never repeats a value. -/
theorem requestToPay_two_identifiers (env : Env) (n : Nat) (body : List (String × JSVal))
    (data : JSVal)
    (htoken : (JSVal.lookup body "momoTokenId").truthy = true)
    (hprovider : env.provider (Server.requestToPayCall env (JSVal.lookup body "total")
        (JSVal.lookup body "phone") (JSVal.lookup body "momoTokenId")
        (env.uuidv4 n) (env.uuidv4 (n + 1))) = .ok data) :
    ∃ call sent,
      (Server.requestToPay env n body).calls = [call]
      ∧ call.data = some sent
      ∧ sent.getProp "externalId" = some (.str (env.uuidv4 n))
      ∧ call.header "X-Reference-Id" = some (env.uuidv4 (n + 1))
      ∧ (Server.requestToPay env n body).uuidsDrawn = n + 2
      ∧ (Server.requestToPay env n body).response
          = some ⟨200, .obj [("momoResponse", data), ("success", .bool true),
                            ("paymentRefId", .str (env.uuidv4 (n + 1))),
                            ("externalId", .str (env.uuidv4 n))]⟩
      ∧ ((∀ i j, env.uuidv4 i = env.uuidv4 j → i = j) → env.uuidv4 n ≠ env.uuidv4 (n + 1)) := by
  refine ⟨Server.requestToPayCall env (JSVal.lookup body "total")
        (JSVal.lookup body "phone") (JSVal.lookup body "momoTokenId")
        (env.uuidv4 n) (env.uuidv4 (n + 1)),
      Server.requestToPayBody (JSVal.lookup body "total") (JSVal.lookup body "phone")
        (env.uuidv4 n), ?_, rfl, ?_, ?_, ?_, ?_, ?_⟩
  · simp [Server.requestToPay, htoken, hprovider]
  · simp [Server.requestToPayBody, JSVal.getProp, JSVal.lookup]
  · simp [Server.requestToPayCall, ProviderReq.header]
  · simp [Server.requestToPay, htoken, hprovider]
  · simp [Server.requestToPay, htoken, hprovider]
  · intro hinj h
    have := hinj _ _ h
    omega

/-- C7, worked example: the sample body against the accepting provider after one
identifier has been drawn. -/
theorem requestToPay_two_identifiers_witness :
    (JSVal.lookup sampleBody "momoTokenId").truthy = true
    ∧ (∀ i j, acceptingEnv.uuidv4 i = acceptingEnv.uuidv4 j → i = j)
    ∧ (∃ call sent,
        (Server.requestToPay acceptingEnv 1 sampleBody).calls = [call]
        ∧ call.data = some sent
        ∧ sent.getProp "externalId" = some (.str "uu")
        ∧ call.header "X-Reference-Id" = some "uuu"
        ∧ (Server.requestToPay acceptingEnv 1 sampleBody).response
            = some ⟨200, .obj [("momoResponse", .str ""), ("success", .bool true),
                              ("paymentRefId", .str "uuu"), ("externalId", .str "uu")]⟩
        ∧ acceptingEnv.uuidv4 1 ≠ acceptingEnv.uuidv4 2) := by
  refine ⟨by decide, fun i j h => sampleUuid_injective h, ?_⟩
  obtain ⟨call, sent, h1, h2, h3, h4, _, h6, h7⟩ :=
    requestToPay_two_identifiers acceptingEnv 1 sampleBody (.str "") (by decide) rfl
  exact ⟨call, sent, h1, h2, h3, h4, h6, h7 (fun i j h => sampleUuid_injective h)⟩

/-! ## C8: body and bearer header of request-to-pay -/

/-- C8: for every phone, total and non-empty (truthy) token, the body that
`POST /request-to-pay` sends to the provider has `amount` equal to the received total
unchanged, `currency` equal to the fixed value `EUR` whatever the input,
`payer.partyIdType` equal to `MSISDN` and `payer.partyId` equal to the received phone
unchanged, and the `Authorization` header is `Bearer ` followed by the received token. -/
theorem requestToPay_body_and_bearer (env : Env) (n : Nat) (body : List (String × JSVal))
    (htoken : (JSVal.lookup body "momoTokenId").truthy = true) :
    ∃ call sent payer,
      (Server.requestToPay env n body).calls = [call]
      ∧ call.url = momoRequestToPayUrl
      ∧ call.data = some sent
      ∧ sent.getProp "amount" = some (JSVal.lookup body "total")
      ∧ sent.getProp "currency" = some (.str "EUR")
      ∧ sent.getProp "payer" = some payer
      ∧ payer.getProp "partyIdType" = some (.str "MSISDN")
      ∧ payer.getProp "partyId" = some (JSVal.lookup body "phone")
      ∧ call.header "Authorization"
          = some ("Bearer " ++ (JSVal.lookup body "momoTokenId").toStr)
      ∧ (∀ token : String, JSVal.lookup body "momoTokenId" = .str token →
          call.header "Authorization" = some ("Bearer " ++ token)) := by
  refine ⟨Server.requestToPayCall env (JSVal.lookup body "total")
        (JSVal.lookup body "phone") (JSVal.lookup body "momoTokenId")
        (env.uuidv4 n) (env.uuidv4 (n + 1)),
      Server.requestToPayBody (JSVal.lookup body "total") (JSVal.lookup body "phone")
        (env.uuidv4 n),
      .obj [("partyIdType", .str "MSISDN"), ("partyId", JSVal.lookup body "phone")],
      ?_, rfl, rfl, ?_, ?_, ?_, ?_, ?_, ?_, ?_⟩
  · simp only [Server.requestToPay, htoken]
    simp only [Bool.not_true, Bool.false_eq_true, if_false]
    split <;> rfl
  · simp [Server.requestToPayBody, JSVal.getProp, JSVal.lookup]
  · simp [Server.requestToPayBody, JSVal.getProp, JSVal.lookup]
  · simp [Server.requestToPayBody, JSVal.getProp, JSVal.lookup]
  · simp [JSVal.getProp, JSVal.lookup]
  · simp [JSVal.getProp, JSVal.lookup]
  · simp [Server.requestToPayCall, ProviderReq.header]
  · intro token h
    simp [Server.requestToPayCall, ProviderReq.header, h, JSVal.toStr]

/-- C8, worked example: the sample body. -/
theorem requestToPay_body_and_bearer_witness :
    (JSVal.lookup sampleBody "momoTokenId").truthy = true
    ∧ JSVal.lookup sampleBody "momoTokenId" = .str "eyJ0eXAi"
    ∧ (∃ call sent payer,
        (Server.requestToPay rejectingEnv 0 sampleBody).calls = [call]
        ∧ call.data = some sent
        ∧ sent.getProp "amount" = some (.str "500")
        ∧ sent.getProp "currency" = some (.str "EUR")
        ∧ sent.getProp "payer" = some payer
        ∧ payer.getProp "partyIdType" = some (.str "MSISDN")
        ∧ payer.getProp "partyId" = some (.str "0700000000")
        ∧ call.header "Authorization" = some "Bearer eyJ0eXAi") := by
  refine ⟨by decide, rfl, ?_⟩
  obtain ⟨call, sent, payer, h1, _, h3, h4, h5, h6, h7, h8, _, h10⟩ :=
    requestToPay_body_and_bearer rejectingEnv 0 sampleBody (by decide)
  exact ⟨call, sent, payer, h1, h3, h4, h5, h6, h7, h8, h10 "eyJ0eXAi" rfl⟩

/-! ## C9: payment status -/

/-- C9 (amended): for every reference id R, `GET /payment-status/:transactionId` issues
exactly one GET; its URL is the request-to-pay base URL followed by `/` and R unmodified,
so that what stands after the base URL and the slash is R character for character; R is
the final path segment of that URL whenever R holds none of `/`, `?` and `#`; on provider
success the handler answers 200 with the payload of the provider unchanged, on failure
it answers 500 with the error message. -/
theorem paymentStatus_passes_reference (env : Env) (n : Nat) (R : String) :
    (Server.paymentStatus env n R).calls = [Server.paymentStatusCall env R]
    ∧ (Server.paymentStatusCall env R).method = "GET"
    ∧ (Server.paymentStatusCall env R).url = momoRequestToPayUrl ++ "/" ++ R
    ∧ (Server.paymentStatusCall env R).url.data.drop (momoRequestToPayUrl.length + 1) = R.data
    ∧ (('/' ∉ R.data ∧ '?' ∉ R.data ∧ '#' ∉ R.data) →
        lastSegment (Server.paymentStatusCall env R).url = R)
    ∧ (∀ data, env.provider (Server.paymentStatusCall env R) = .ok data →
        (Server.paymentStatus env n R).response = some ⟨200, data⟩)
    ∧ (∀ message, env.provider (Server.paymentStatusCall env R) = .error message →
        (Server.paymentStatus env n R).response
          = some ⟨500, .obj [("error", .str ("An error occurred: " ++ message))]⟩) := by
  have hurl : (Server.paymentStatusCall env R).url = momoRequestToPayUrl ++ "/" ++ R := by
    apply String.ext
    simp [Server.paymentStatusCall, momoRequestToPayUrl, momoHost, String.data_append]
  refine ⟨?_, rfl, hurl, ?_, ?_, ?_, ?_⟩
  · simp only [Server.paymentStatus]
    split <;> rfl
  · have hdata : (momoRequestToPayUrl ++ "/" ++ R).data
        = (momoRequestToPayUrl.data ++ ['/']) ++ R.data := by
      simp [String.data_append]
    rw [hurl, hdata]
    apply List.drop_left'
    rw [List.length_append]
    rfl
  · intro h
    rw [hurl]
    exact lastSegment_append _ _ (by decide) h
  · intro data h
    simp [Server.paymentStatus, h]
  · intro message h
    simp [Server.paymentStatus, h]

/-- C9, worked example: the status of reference `uu` against the accepting and against
the rejecting provider. -/
theorem paymentStatus_passes_reference_witness :
    ('/' ∉ "uu".data ∧ '?' ∉ "uu".data ∧ '#' ∉ "uu".data)
    ∧ lastSegment (Server.paymentStatusCall acceptingEnv "uu").url = "uu"
    ∧ (Server.paymentStatus acceptingEnv 2 "uu").response
        = some ⟨200, .obj [("status", .str "SUCCESSFUL")]⟩
    ∧ (Server.paymentStatus rejectingEnv 2 "uu").response
        = some ⟨500, .obj [("error", .str "An error occurred: Request failed with status code 500")]⟩ :=
  ⟨by decide,
   (paymentStatus_passes_reference acceptingEnv 2 "uu").2.2.2.2.1 (by decide),
   (paymentStatus_passes_reference acceptingEnv 2 "uu").2.2.2.2.2.1 _ rfl,
   (paymentStatus_passes_reference rejectingEnv 2 "uu").2.2.2.2.2.2 _ rfl⟩

/-- C9, as stated, fails.  The request `GET /payment-status/a%2Fb` reaches the handler
with the reference id `a/b`; the one provider call goes to the base URL followed by
`/a/b`, whose final path segment is `b`, not `a/b`.  With the reference id `x?y` the
final path segment is `x`. -/
theorem paymentStatus_passes_reference_counterexample :
    (Server.app acceptingEnv ⟨0, []⟩
        ⟨"GET", "http://localhost:3001/payment-status/a%2Fb", [], none⟩).2.providerCalls
      = [Server.paymentStatusCall acceptingEnv "a/b"]
    ∧ (Server.paymentStatus acceptingEnv 0 "a/b").calls
      = [Server.paymentStatusCall acceptingEnv "a/b"]
    ∧ (Server.paymentStatusCall acceptingEnv "a/b").url
      = "https://sandbox.momodeveloper.mtn.com/collection/v1_0/requesttopay/a/b"
    ∧ lastSegment (Server.paymentStatusCall acceptingEnv "a/b").url = "b"
    ∧ lastSegment (Server.paymentStatusCall acceptingEnv "a/b").url ≠ "a/b"
    ∧ lastSegment (Server.paymentStatusCall acceptingEnv "x?y").url = "x"
    ∧ lastSegment (Server.paymentStatusCall acceptingEnv "x?y").url ≠ "x?y" := by
  refine ⟨rfl, rfl, rfl, by decide, by decide, by decide, by decide⟩

/-! ## C10: user creation -/

/-- C10: `POST /create-api-user` draws one identifier and uses that same value as the
`X-Reference-Id` header of its provider call and as the `userId` it returns on success;
when the provider call fails it answers 500 with the upstream error message and no
`userId`; in both cases the provider call is issued exactly once. -/
theorem createApiUser_one_identifier (env : Env) (n : Nat) :
    (Server.createApiUser env n).calls = [Server.createApiUserCall env (env.uuidv4 n)]
    ∧ (Server.createApiUserCall env (env.uuidv4 n)).header "X-Reference-Id" = some (env.uuidv4 n)
    ∧ (Server.createApiUser env n).uuidsDrawn = n + 1
    ∧ (∀ data, env.provider (Server.createApiUserCall env (env.uuidv4 n)) = .ok data →
        (Server.createApiUser env n).response
          = some ⟨200, .obj [("response", data), ("userId", .str (env.uuidv4 n))]⟩
        ∧ JSVal.getProp (.obj [("response", data), ("userId", .str (env.uuidv4 n))]) "userId"
          = some (.str (env.uuidv4 n)))
    ∧ (∀ message, env.provider (Server.createApiUserCall env (env.uuidv4 n)) = .error message →
        (Server.createApiUser env n).response
          = some ⟨500, .obj [("message", .str "Error creating API user"), ("error", .str message)]⟩
        ∧ JSVal.getProp (.obj [("message", .str "Error creating API user"),
            ("error", .str message)]) "userId" = some .undefined) := by
  refine ⟨?_, ?_, ?_, ?_, ?_⟩
  · simp only [Server.createApiUser]
    split <;> rfl
  · simp [Server.createApiUserCall, ProviderReq.header]
  · simp only [Server.createApiUser]
    split <;> rfl
  · intro data h
    simp [Server.createApiUser, h, JSVal.getProp, JSVal.lookup]
  · intro message h
    simp [Server.createApiUser, h, JSVal.getProp, JSVal.lookup]

/-- C10, worked example: the handler run against the accepting and against the rejecting
provider. -/
theorem createApiUser_one_identifier_witness :
    (acceptingEnv.provider (Server.createApiUserCall acceptingEnv (acceptingEnv.uuidv4 0))
        = .ok (.str "")
      ∧ (Server.createApiUser acceptingEnv 0).response
        = some ⟨200, .obj [("response", .str ""), ("userId", .str "u")]⟩)
    ∧ (rejectingEnv.provider (Server.createApiUserCall rejectingEnv (rejectingEnv.uuidv4 0))
        = .error "Request failed with status code 500"
      ∧ (Server.createApiUser rejectingEnv 0).response
        = some ⟨500, .obj [("message", .str "Error creating API user"),
                          ("error", .str "Request failed with status code 500")]⟩) :=
  ⟨⟨rfl, ((createApiUser_one_identifier acceptingEnv 0).2.2.2.1 (.str "") rfl).1⟩,
   ⟨rfl, ((createApiUser_one_identifier rejectingEnv 0).2.2.2.2
      "Request failed with status code 500" rfl).1⟩⟩

end MoMo
